import Mathlib

/-!
# Cayenne MQTT example agent (`main.cpp`): embedding and properties

The program in `main.cpp` is a single-threaded agent built on three external
collaborators: the network driver (`network`), the Cayenne MQTT client
(`mqttClient`) and a countdown timer (`MQTTTimer`).  Everything the program does
is a call on one of them, or a `printf`.

The embedding is explicit state passing.  A `World` carries the chronological
trace of calls made so far (each with the value it returned) and counters saying
how many calls of each answering kind were made; an `Env` fixes how the
collaborators answer.  The `while` loops of the source that need not terminate
take an iteration budget and report `Run.more` when the budget is used up.
-/

namespace Cayenne

/-! ## Library constants -/

/-- Constants that `main.cpp` takes from the library headers (`CayenneMQTTClient.h`,
`MQTTClient.h`, ...), which are not part of the sources at hand.  They are kept as
parameters: every definition below takes a `Lib`, nothing fixes their values, and a theorem that
needs a relation between two of them states it as a hypothesis. -/
structure Lib where
  CAYENNE_SUCCESS : Int
  MQTT_SUCCESS : Int
  CAYENNE_DOMAIN : String
  CAYENNE_PORT : Int
  CAYENNE_VERSION : String
  COMMAND_TOPIC : Int
  CONFIG_TOPIC : Int
  DATA_TOPIC : Int
  SYS_VERSION_TOPIC : Int
  SYS_MODEL_TOPIC : Int
  CAYENNE_ALL_CHANNELS : Int
  CAYENNE_NO_CHANNEL : Int
  TEMPERATURE : String
  CELSIUS : String
  LUMINOSITY : String
  LUX : String
  BAROMETRIC_PRESSURE : String
  HECTOPASCAL : String

/-! ## Messages -/

/-- One value entry of a message: a value and a unit, each possibly absent (`NULL`). -/
structure CayenneValuePair where
  value : Option String
  unit : Option String

/-- The `CayenneMQTT::MessageData` record handed to the message handler.  The type is declared
in the library header; the fields are the ones `main.cpp` reads.  The entry array is a total
function of the index, with no assumption on the entries at or beyond `valueCount`. -/
structure MessageData where
  clientID : Option String
  topic : Int
  channel : Int
  id : Option String
  type : Option String
  values : Nat → CayenneValuePair
  valueCount : Nat

/-- The accessor `message.getValue(index)`; `message.getValue()` is `getValue 0`. -/
def MessageData.getValue (m : MessageData) (index : Nat) : Option String :=
  (m.values index).value

/-- The accessor `message.getUnit(index)`. -/
def MessageData.getUnit (m : MessageData) (index : Nat) : Option String :=
  (m.values index).unit

/-! ## Calls, events, traces -/

/-- An argument of a `printf` call. -/
inductive Arg where
  | int (n : Int)
  | str (s : String)
  deriving DecidableEq, Repr

/-- The value argument of `publishData`, which is overloaded in the library.  A `double`
literal is kept as its decimal digits, `mantissa * 10 ^ exponent`: `30.5` is `double 305 (-1)`. -/
inductive Value where
  | str (s : Option String)
  | int (n : Int)
  | double (mantissa : Int) (exponent : Int)
  deriving DecidableEq, Repr

/-- A call made by the program, with its arguments. -/
inductive Call where
  | printf (fmt : String) (args : List Arg)
  | spi_frequency (hz : Int)
  | mbed_mac_address
  | interface_init
  | setDefaultMessageHandler
  | network_connect (host : String) (port : Int)
  | network_disconnect
  | network_connected
  | mqtt_connect
  | mqtt_disconnect
  | mqtt_connected
  | subscribe (topic : Int) (channel : Int)
  | publishData (topic : Int) (channel : Int) (type : Option String) (unit : Option String)
      (value : Value)
  | publishResponse (channel : Int) (id : Option String) (error : Option String)
      (clientID : Option String)
  | mqtt_yield (ms : Int)
  | wait (s : Int)
  | timer_new (ms : Nat)
  | timer_countdown_ms (ms : Nat)
  | timer_expired
  deriving DecidableEq, Repr

/-- What a call returned. -/
inductive Ret where
  | none
  | code (rc : Int)
  | flag (b : Bool)
  deriving DecidableEq, Repr

/-- A call together with what it returned. -/
structure Event where
  call : Call
  ret : Ret
  deriving DecidableEq, Repr

/-- The event of a call whose result is not used (`void`, or ignored by `printf`). -/
def Event.plain (c : Call) : Event := ⟨c, Ret.none⟩

/-- Whether a call is a `printf`. -/
def Call.isPrintf : Call → Bool
  | Call.printf _ _ => true
  | _ => false

/-- Whether a call is `mqttClient.publishResponse`. -/
def Call.isPublishResponse : Call → Bool
  | Call.publishResponse _ _ _ _ => true
  | _ => false

/-- Whether a call is `mqttClient.publishData`. -/
def Call.isPublishData : Call → Bool
  | Call.publishData _ _ _ _ _ => true
  | _ => false

/-- Whether a call is `mqttClient.subscribe`. -/
def Call.isSubscribe : Call → Bool
  | Call.subscribe _ _ => true
  | _ => false

/-- The calls of a trace, results dropped. -/
def calls (tr : List Event) : List Call := tr.map Event.call

/-- The calls of a trace on the collaborators: everything but the `printf`s. -/
def outbound (tr : List Event) : List Call := (calls tr).filter (fun c => !c.isPrintf)

/-! ## Environment and world -/

/-- How the collaborators answer.  Result codes are indexed by the number of earlier calls of
the same kind; the connection status is indexed by the logical time, which is the number of
events so far.  The clock is given by its reading at logical time 0 and by the time each event
takes, in milliseconds, so it never runs backwards. -/
structure Env where
  network_connect : Nat → Int
  mqtt_connect : Nat → Int
  subscribe : Nat → Int
  publishData : Nat → Int
  publishResponse : Nat → Int
  inbound : Nat → List MessageData
  network_up : Nat → Bool
  mqtt_up : Nat → Bool
  start_ms : Nat
  tick_ms : Nat → Nat

/-- The clock reading, in milliseconds, at logical time `t`: the reading at time 0 plus the time
taken by the events before `t`. -/
def Env.now_ms (env : Env) : Nat → Nat
  | 0 => env.start_ms
  | t + 1 => env.now_ms t + env.tick_ms t

/-- The state threaded through the program: the trace so far, whether `messageArrived` has been
installed as default handler, and the per-kind call counters. -/
structure World where
  trace : List Event
  handler : Bool
  nNetworkConnect : Nat
  nMqttConnect : Nat
  nSubscribe : Nat
  nPublishData : Nat
  nPublishResponse : Nat
  nYield : Nat

/-- The world at process start. -/
def World.init : World := ⟨[], false, 0, 0, 0, 0, 0, 0⟩

/-- Append events to the trace. -/
def World.emit (w : World) (evs : List Event) : World :=
  { w with trace := w.trace ++ evs }

/-- The events added to the trace in going from `w` to `w2`. -/
def World.since (w w2 : World) : List Event := w2.trace.drop w.trace.length

/-- The outcome of running code that contains an unbounded loop: finished with a value, or
still looping when the iteration budget ran out. -/
inductive Run (α : Type) where
  | done (a : α) (w : World)
  | more (w : World)

/-- The world reached, finished or not. -/
def Run.world {α : Type} : Run α → World
  | Run.done _ w => w
  | Run.more w => w

/-! ## The collaborators' operations -/

/-- A `printf` call. -/
def printf (fmt : String) (args : List Arg) : Event := Event.plain (Call.printf fmt args)

/-- Call `wait(s)`. -/
def wait (s : Int) (w : World) : World := w.emit [Event.plain (Call.wait s)]

/-- Call `network.connect(CAYENNE_DOMAIN, CAYENNE_PORT)`. -/
def network_connect (L : Lib) (env : Env) (w : World) : Int × World :=
  let rc := env.network_connect w.nNetworkConnect
  (rc, { w with
    trace := w.trace ++ [⟨Call.network_connect L.CAYENNE_DOMAIN L.CAYENNE_PORT, Ret.code rc⟩]
    nNetworkConnect := w.nNetworkConnect + 1 })

/-- Call `network.disconnect()`. -/
def network_disconnect (w : World) : World := w.emit [Event.plain Call.network_disconnect]

/-- Call `network.connected()`: the transport status at the current logical time. -/
def network_connected (env : Env) (w : World) : Bool × World :=
  let b := env.network_up w.trace.length
  (b, w.emit [⟨Call.network_connected, Ret.flag b⟩])

/-- Call `mqttClient.connect()`. -/
def mqtt_connect (env : Env) (w : World) : Int × World :=
  let rc := env.mqtt_connect w.nMqttConnect
  (rc, { w with
    trace := w.trace ++ [⟨Call.mqtt_connect, Ret.code rc⟩]
    nMqttConnect := w.nMqttConnect + 1 })

/-- Call `mqttClient.disconnect()`. -/
def mqtt_disconnect (w : World) : World := w.emit [Event.plain Call.mqtt_disconnect]

/-- Call `mqttClient.connected()`: the protocol status at the current logical time. -/
def mqtt_connected (env : Env) (w : World) : Bool × World :=
  let b := env.mqtt_up w.trace.length
  (b, w.emit [⟨Call.mqtt_connected, Ret.flag b⟩])

/-- Call `mqttClient.subscribe(topic, channel)`. -/
def subscribe (env : Env) (topic channel : Int) (w : World) : Int × World :=
  let rc := env.subscribe w.nSubscribe
  (rc, { w with
    trace := w.trace ++ [⟨Call.subscribe topic channel, Ret.code rc⟩]
    nSubscribe := w.nSubscribe + 1 })

/-- Call `mqttClient.publishData(topic, channel, type, unit, value)`. -/
def publishData (env : Env) (topic channel : Int) (type unit : Option String) (value : Value)
    (w : World) : Int × World :=
  let rc := env.publishData w.nPublishData
  (rc, { w with
    trace := w.trace ++ [⟨Call.publishData topic channel type unit value, Ret.code rc⟩]
    nPublishData := w.nPublishData + 1 })

/-- Call `mqttClient.publishResponse(channel, id, error, clientID)`. -/
def publishResponse (env : Env) (channel : Int) (id error clientID : Option String)
    (w : World) : Int × World :=
  let rc := env.publishResponse w.nPublishResponse
  (rc, { w with
    trace := w.trace ++ [⟨Call.publishResponse channel id error clientID, Ret.code rc⟩]
    nPublishResponse := w.nPublishResponse + 1 })

/-! ## `outputMessage` -/

/-- The `printf` calls of the `for` loop of `outputMessage`, from index `i` on.  The first
argument bounds the number of iterations; `outputMessage` passes `valueCount`. -/
def outputValues (m : MessageData) : Nat → Nat → List Event
  | 0, _ => []
  | fuel + 1, i =>
    if i < m.valueCount then
      (match m.getValue i with
        | some v => [printf " value=%s" [Arg.str v]]
        | none => []) ++
      (match m.getUnit i with
        | some u => [printf " unit=%s" [Arg.str u]]
        | none => []) ++
      outputValues m fuel (i + 1)
    else []

/-- The `printf` calls of `outputMessage(message)`, in order. -/
def outputMessage (L : Lib) (m : MessageData) : List Event :=
  [if m.topic = L.COMMAND_TOPIC then printf "topic=Command" []
   else if m.topic = L.CONFIG_TOPIC then printf "topic=Config" []
   else printf "topic=%d" [Arg.int m.topic]] ++
  [printf " channel=%d" [Arg.int m.channel]] ++
  (match m.clientID with
    | some c => [printf " clientID=%s" [Arg.str c]]
    | none => []) ++
  (match m.type with
    | some t => [printf " type=%s" [Arg.str t]]
    | none => []) ++
  outputValues m m.valueCount 0 ++
  (match m.id with
    | some i => [printf " id=%s" [Arg.str i]]
    | none => []) ++
  [printf "\n" []]

/-! ## `messageArrived` -/

/-- The handler `messageArrived(message)`. -/
def messageArrived (L : Lib) (env : Env) (m : MessageData) (w : World) : World :=
  let w := w.emit (outputMessage L m)
  if m.topic = L.COMMAND_TOPIC then
    let r := publishResponse env m.channel m.id none m.clientID w
    let w := if r.1 ≠ L.CAYENNE_SUCCESS
      then r.2.emit [printf "Response failure, error: %d\n" [Arg.int r.1]] else r.2
    let r := publishData env L.DATA_TOPIC m.channel none none (Value.str (m.getValue 0)) w
    if r.1 ≠ L.CAYENNE_SUCCESS
      then r.2.emit [printf "Publish state failure, error: %d\n" [Arg.int r.1]] else r.2
  else w

/-! ## `MQTTTimer` and `yield` -/

/-- Modelled from the spec: the class `MQTTTimer` (header `MQTTTimer.h`), which is not among the
sources.  The spec's Timer is a duration and a deadline: it is armed with a duration, polled for
expiry and rearmed after firing; armed for 5000 ms it has not expired at 4999 ms and has expired
at 5000 ms. -/
structure MQTTTimer where
  duration : Nat
  deadline : Nat
  deriving DecidableEq, Repr

/-- Modelled from the spec: arming the timer at time `now` for `ms` milliseconds
(`countdown_ms`, also done by the constructor `MQTTTimer(ms)`). -/
def MQTTTimer.arm (now ms : Nat) : MQTTTimer := ⟨ms, now + ms⟩

/-- Modelled from the spec: `expired()` polled at time `now`: the deadline has been reached. -/
def MQTTTimer.expiredAt (t : MQTTTimer) (now : Nat) : Bool := decide (t.deadline ≤ now)

/-- The declaration `MQTTTimer timer(5000)`: a timer armed at the current time. -/
def timer_new (env : Env) (ms : Nat) (w : World) : MQTTTimer × World :=
  (MQTTTimer.arm (env.now_ms w.trace.length) ms, w.emit [Event.plain (Call.timer_new ms)])

/-- Call `timer.expired()`. -/
def timer_expired (env : Env) (t : MQTTTimer) (w : World) : Bool × World :=
  let b := t.expiredAt (env.now_ms w.trace.length)
  (b, w.emit [⟨Call.timer_expired, Ret.flag b⟩])

/-- Call `timer.countdown_ms(ms)`: the timer rearmed at the current time. -/
def timer_countdown_ms (env : Env) (ms : Nat) (w : World) : MQTTTimer × World :=
  (MQTTTimer.arm (env.now_ms w.trace.length) ms, w.emit [Event.plain (Call.timer_countdown_ms ms)])

/-- Modelled from the spec: `mqttClient.yield(ms)` (library code, not among the sources)
processes zero or more inbound messages, in arrival order, each dispatched synchronously to the
default handler when one is installed and dropped otherwise. -/
def mqtt_yield (L : Lib) (env : Env) (ms : Int) (w : World) : World :=
  let msgs := env.inbound w.nYield
  let w1 : World := { w with
    trace := w.trace ++ [Event.plain (Call.mqtt_yield ms)]
    nYield := w.nYield + 1 }
  if w1.handler then msgs.foldl (fun w m => messageArrived L env m w) w1 else w1

/-! ## `connectClient` -/

/-- The loop `while ((error = network.connect(...)) != 0) { printf(...); wait(2); }`, with a
budget of `network.connect` attempts. -/
def connectLoop (L : Lib) (env : Env) : Nat → World → Run Int
  | 0, w => Run.more w
  | fuel + 1, w =>
    let r := network_connect L env w
    if r.1 ≠ 0 then
      connectLoop L env fuel
        (wait 2 (r.2.emit [printf "TCP connect failed, error: %d\n" [Arg.int r.1]]))
    else Run.done r.1 r.2

/-- The function `connectClient()`; `N` bounds the iterations of its connect loop. -/
def connectClient (L : Lib) (env : Env) (N : Nat) (w : World) : Run Int :=
  let w := w.emit
    [printf "Connecting to %s:%d\n" [Arg.str L.CAYENNE_DOMAIN, Arg.int L.CAYENNE_PORT]]
  match connectLoop L env N w with
  | Run.more w => Run.more w
  | Run.done _ w =>
    let r := mqtt_connect env w
    if r.1 ≠ L.MQTT_SUCCESS then
      Run.done r.1 (r.2.emit [printf "MQTT connect failed, error: %d\n" [Arg.int r.1]])
    else
      let w := r.2.emit [printf "Connected\n" []]
      let r := subscribe env L.COMMAND_TOPIC L.CAYENNE_ALL_CHANNELS w
      let w := if r.1 ≠ L.CAYENNE_SUCCESS
        then r.2.emit [printf "Subscription to Command topic failed, error: %d\n" [Arg.int r.1]]
        else r.2
      let r := subscribe env L.CONFIG_TOPIC L.CAYENNE_ALL_CHANNELS w
      let w := if r.1 ≠ L.CAYENNE_SUCCESS
        then r.2.emit [printf "Subscription to Config topic failed, error:%d\n" [Arg.int r.1]]
        else r.2
      let w := (publishData env L.SYS_VERSION_TOPIC L.CAYENNE_NO_CHANNEL none none
        (Value.str (some L.CAYENNE_VERSION)) w).2
      let w := (publishData env L.SYS_MODEL_TOPIC L.CAYENNE_NO_CHANNEL none none
        (Value.str (some "mbedDevice")) w).2
      Run.done L.CAYENNE_SUCCESS w

/-! ## `loop` -/

/-- The loop `while (connectClient() != CAYENNE_SUCCESS) { wait(2); printf(...); }`, with a
budget of `connectClient` attempts; `N` is the budget of every loop inside. -/
def reconnectLoop (L : Lib) (env : Env) (N : Nat) : Nat → World → Run Unit
  | 0, w => Run.more w
  | fuel + 1, w =>
    match connectClient L env N w with
    | Run.more w => Run.more w
    | Run.done rc w =>
      if rc ≠ L.CAYENNE_SUCCESS then
        reconnectLoop L env N fuel ((wait 2 w).emit [printf "Reconnect failed, retrying\n" []])
      else Run.done () w

/-- The body of the `if` of the liveness check: teardown of both layers, then reconnect. -/
def reconnect (L : Lib) (env : Env) (N : Nat) (w : World) : Run Unit :=
  let w := network_disconnect w
  let w := mqtt_disconnect w
  let w := w.emit [printf "Reconnecting\n" []]
  reconnectLoop L env N N w

/-- The liveness check `if (!network.connected() || !mqttClient.connected()) { ... }` of a
cycle; the second poll is made only when the first reports connected. -/
def checkConnection (L : Lib) (env : Env) (N : Nat) (w : World) : Run Unit :=
  let r := network_connected env w
  if !r.1 then reconnect L env N r.2
  else
    let r := mqtt_connected env r.2
    if !r.1 then reconnect L env N r.2 else Run.done () r.2

/-- The timer check `if (timer.expired()) { ... }` of a cycle. -/
def checkTimer (L : Lib) (env : Env) (t : MQTTTimer) (w : World) : MQTTTimer × World :=
  let r := timer_expired env t w
  if r.1 then
    let p := publishData env L.DATA_TOPIC 0 (some L.TEMPERATURE) (some L.CELSIUS)
      (Value.double 305 (-1)) r.2
    let w := if p.1 ≠ L.CAYENNE_SUCCESS
      then p.2.emit [printf "Publish temperature failed, error: %d\n" [Arg.int p.1]] else p.2
    let p := publishData env L.DATA_TOPIC 1 (some L.LUMINOSITY) (some L.LUX) (Value.int 1000) w
    let w := if p.1 ≠ L.CAYENNE_SUCCESS
      then p.2.emit [printf "Publish luminosity failed, error: %d\n" [Arg.int p.1]] else p.2
    let p := publishData env L.DATA_TOPIC 2 (some L.BAROMETRIC_PRESSURE) (some L.HECTOPASCAL)
      (Value.int 800) w
    let w := if p.1 ≠ L.CAYENNE_SUCCESS
      then p.2.emit [printf "Publish barometric pressure failed, error: %d\n" [Arg.int p.1]]
      else p.2
    timer_countdown_ms env 5000 w
  else (t, r.2)

/-- One cycle of the `while (true)` of `loop`: yield, liveness check, timer check. -/
def loopBody (L : Lib) (env : Env) (N : Nat) (t : MQTTTimer) (w : World) : Run MQTTTimer :=
  let w := mqtt_yield L env 1000 w
  match checkConnection L env N w with
  | Run.more w => Run.more w
  | Run.done _ w =>
    let r := checkTimer L env t w
    Run.done r.1 r.2

/-- The `while (true)` of `loop`, run for at most `n` cycles: the world reached when the
cycles are used up or a loop inside has used up its budget. -/
def loopIter (L : Lib) (env : Env) (N : Nat) : Nat → MQTTTimer → World → World
  | 0, _, w => w
  | n + 1, t, w =>
    match loopBody L env N t w with
    | Run.more w => w
    | Run.done t w => loopIter L env N n t w

/-- The function `loop()`, which never returns, run for at most `n` cycles. -/
def loop (L : Lib) (env : Env) (N n : Nat) (w : World) : World :=
  let r := timer_new env 5000 w
  loopIter L env N n r.1 r.2

/-! ## `main` -/

/-- The exit path of `main`: each layer is polled and disconnected when it reports
connected, the protocol layer first. -/
def exitPath (env : Env) (w : World) : World :=
  let r := mqtt_connected env w
  let w := if r.1 then mqtt_disconnect r.2 else r.2
  let r := network_connected env w
  if r.1 then network_disconnect r.2 else r.2

/-- The start of `main`, up to the installation of `messageArrived` as default handler. -/
def startup (w : World) : World :=
  let w := w.emit [printf "Initializing interface\n" []]
  let w := w.emit [Event.plain (Call.spi_frequency 42000000)]
  let w := w.emit [Event.plain Call.mbed_mac_address]
  let w := w.emit [Event.plain Call.interface_init]
  { w with
    trace := w.trace ++ [Event.plain Call.setDefaultMessageHandler]
    handler := true }

/-- The function `main()`, started in world `w`.  It returns 0 through the exit path when the
first `connectClient` fails; otherwise it enters `loop`, which does not return. -/
def main (L : Lib) (env : Env) (N n : Nat) (w : World) : Run Int :=
  match connectClient L env N (startup w) with
  | Run.more w => Run.more w
  | Run.done rc w =>
    if rc = L.CAYENNE_SUCCESS then Run.more (loop L env N n w)
    else Run.done 0 (exitPath env (w.emit [printf "Connection failed, exiting\n" []]))

/-! ## The derived line, as the specification words it -/

/-- An optional field of the derived line: emitted when present, nothing when absent. -/
def optField (fmt : String) (o : Option String) : List Event :=
  o.toList.map (fun s => printf fmt [Arg.str s])

/-- The fields contributed by one value entry: its value when it has one, then its unit when it
has one. -/
def entryFields (e : CayenneValuePair) : List Event :=
  optField " value=%s" e.value ++ optField " unit=%s" e.unit

/-- The topic field of the derived line. -/
def topicField (L : Lib) (topic : Int) : Event :=
  if topic = L.COMMAND_TOPIC then printf "topic=Command" []
  else if topic = L.CONFIG_TOPIC then printf "topic=Config" []
  else printf "topic=%d" [Arg.int topic]

/-- The line derived from a message, following the specification: topic, channel, the optional
client id and type, the fields of the entries 0 .. valueCount-1 in order, the optional request
id, end of line. -/
def messageLine (L : Lib) (m : MessageData) : List Event :=
  [topicField L m.topic, printf " channel=%d" [Arg.int m.channel]] ++
  optField " clientID=%s" m.clientID ++
  optField " type=%s" m.type ++
  (List.range m.valueCount).flatMap (fun i => entryFields (m.values i)) ++
  optField " id=%s" m.id ++
  [printf "\n" []]

/-! ## Example inputs -/

/-- A valuation of the library constants, used to evaluate the program on examples. -/
def exampleLib : Lib where
  CAYENNE_SUCCESS := 0
  MQTT_SUCCESS := 0
  CAYENNE_DOMAIN := "mqtt.mydevices.com"
  CAYENNE_PORT := 1883
  CAYENNE_VERSION := "1.0.1"
  COMMAND_TOPIC := 2
  CONFIG_TOPIC := 3
  DATA_TOPIC := 1
  SYS_VERSION_TOPIC := 6
  SYS_MODEL_TOPIC := 5
  CAYENNE_ALL_CHANNELS := -2
  CAYENNE_NO_CHANNEL := -1
  TEMPERATURE := "temp"
  CELSIUS := "c"
  LUMINOSITY := "lum"
  LUX := "lux"
  BAROMETRIC_PRESSURE := "bp"
  HECTOPASCAL := "hpa"

/-- An environment in which every call succeeds, both layers stay connected and nothing arrives;
the clock stands at 0. -/
def calmEnv : Env where
  network_connect := fun _ => 0
  mqtt_connect := fun _ => 0
  subscribe := fun _ => 0
  publishData := fun _ => 0
  publishResponse := fun _ => 0
  inbound := fun _ => []
  network_up := fun _ => true
  mqtt_up := fun _ => true
  start_ms := 0
  tick_ms := fun _ => 0

/-- An environment after an outage: the transport reports not connected, the next two
`network.connect` calls fail with -1 and the third succeeds, the protocol connect succeeds, and
every subscribe and publish fails with -1. -/
def flakyEnv : Env where
  network_connect := fun i => if i < 2 then -1 else 0
  mqtt_connect := fun _ => 0
  subscribe := fun _ => -1
  publishData := fun _ => -1
  publishResponse := fun _ => -1
  inbound := fun _ => []
  network_up := fun _ => false
  mqtt_up := fun _ => false
  start_ms := 0
  tick_ms := fun _ => 1

/-- An environment whose broker refuses the protocol connect with code -1: the transport
connects at once and stays connected, the protocol layer is never connected. -/
def refusingEnv : Env where
  network_connect := fun _ => 0
  mqtt_connect := fun _ => -1
  subscribe := fun _ => 0
  publishData := fun _ => 0
  publishResponse := fun _ => 0
  inbound := fun _ => []
  network_up := fun _ => true
  mqtt_up := fun _ => false
  start_ms := 0
  tick_ms := fun _ => 1

/-- An environment in which the connection is lost while a command is being handled: the first
yield delivers the scenario's Command message, and from logical time 15 on, right after that
yield was entered, both layers are down, so the two publishes of the handler fail with -1 (the
two descriptor publishes made before had succeeded); connects, subscribes and later publishes
succeed, and each layer is up again once its reconnect (events 29 and 30 of the run) has
succeeded. -/
def dropEnv : Env where
  network_connect := fun _ => 0
  mqtt_connect := fun _ => 0
  subscribe := fun _ => 0
  publishData := fun i => if i < 2 then 0 else if i < 3 then -1 else 0
  publishResponse := fun _ => -1
  inbound := fun i => if i = 0 then
    [{ clientID := none, topic := 2, channel := 3, id := some "42", type := none,
       values := fun i => if i = 0 then ⟨some "1", none⟩ else ⟨none, none⟩, valueCount := 1 }]
    else []
  network_up := fun t => decide (t < 15) || decide (29 < t)
  mqtt_up := fun t => decide (t < 15) || decide (30 < t)
  start_ms := 0
  tick_ms := fun _ => 1

/-- An environment for the timer scenario, read from the start of `main`: every call succeeds,
both layers stay connected and nothing arrives.  The clock reads 0 until the first yield (event
14); the yields of the first four cycles last 1000 ms each, the fifth (event 30) 999 ms and the
sixth (event 34) 1 ms, and nothing else takes time. -/
def pacedEnv : Env where
  network_connect := fun _ => 0
  mqtt_connect := fun _ => 0
  subscribe := fun _ => 0
  publishData := fun _ => 0
  publishResponse := fun _ => 0
  inbound := fun _ => []
  network_up := fun _ => true
  mqtt_up := fun _ => true
  start_ms := 0
  tick_ms := fun i =>
    if i = 14 ∨ i = 18 ∨ i = 22 ∨ i = 26 then 1000 else if i = 30 then 999
    else if i = 34 then 1 else 0

/-- The Command message of the scenario: channel 3, request id "42", one entry of value "1"
with no unit, no client id and no type. -/
def scenarioCommand : MessageData where
  clientID := none
  topic := exampleLib.COMMAND_TOPIC
  channel := 3
  id := some "42"
  type := none
  values := fun i => if i = 0 then ⟨some "1", none⟩ else ⟨none, none⟩
  valueCount := 1

/-- A Config message: channel 1, one entry of value "on" and unit "d", client id "gw". -/
def scenarioConfig : MessageData where
  clientID := some "gw"
  topic := exampleLib.CONFIG_TOPIC
  channel := 1
  id := none
  type := none
  values := fun _ => ⟨some "on", some "d"⟩
  valueCount := 1

/-! ## Vocabulary for stating the trace properties -/

/-- The events of a trace that are calls on the collaborators, each with its result: the trace
without the `printf`s. -/
def collab (tr : List Event) : List Event := tr.filter (fun e => !e.call.isPrintf)

/-- The event of the `network.connect` call that is the `i`-th of the run. -/
def connectAttempt (L : Lib) (env : Env) (i : Nat) : Event :=
  ⟨Call.network_connect L.CAYENNE_DOMAIN L.CAYENNE_PORT, Ret.code (env.network_connect i)⟩

/-- The events of `k` consecutive failed transport connects, the first being the `c`-th
`network.connect` of the run: each is the call, the failure message and the 2-second wait. -/
def failedConnects (L : Lib) (env : Env) (c k : Nat) : List Event :=
  (List.range' c k).flatMap (fun i =>
    [connectAttempt L env i,
     printf "TCP connect failed, error: %d\n" [Arg.int (env.network_connect i)],
     Event.plain (Call.wait 2)])

/-- The failure message printed after a call that returned `rc`: the `printf` when `rc` is not
`CAYENNE_SUCCESS`, nothing otherwise. -/
def failNote (L : Lib) (fmt : String) (rc : Int) : List Event :=
  if rc ≠ L.CAYENNE_SUCCESS then [printf fmt [Arg.int rc]] else []

/-- The guarded teardown of the exit path, entered at logical time `t`: the protocol layer is
polled and disconnected if it reports connected, then the transport layer is polled and
disconnected if it reports connected. -/
def exitEvents (env : Env) (t : Nat) : List Event :=
  [⟨Call.mqtt_connected, Ret.flag (env.mqtt_up t)⟩] ++
  (if env.mqtt_up t then [Event.plain Call.mqtt_disconnect] else []) ++
  [⟨Call.network_connected, Ret.flag (env.network_up (t + 1 + if env.mqtt_up t then 1 else 0))⟩] ++
  (if env.network_up (t + 1 + if env.mqtt_up t then 1 else 0)
    then [Event.plain Call.network_disconnect] else [])

/-- The events of a `connectClient` that succeeds after `k` failed transport connects, entered
with call counters `c` (transport connects), `m` (protocol connects), `s` (subscribes) and `p`
(data publishes). -/
def connectedEvents (L : Lib) (env : Env) (k c m s p : Nat) : List Event :=
  [printf "Connecting to %s:%d\n" [Arg.str L.CAYENNE_DOMAIN, Arg.int L.CAYENNE_PORT]] ++
  failedConnects L env c k ++
  [connectAttempt L env (c + k),
   ⟨Call.mqtt_connect, Ret.code (env.mqtt_connect m)⟩,
   printf "Connected\n" [],
   ⟨Call.subscribe L.COMMAND_TOPIC L.CAYENNE_ALL_CHANNELS, Ret.code (env.subscribe s)⟩] ++
  failNote L "Subscription to Command topic failed, error: %d\n" (env.subscribe s) ++
  [⟨Call.subscribe L.CONFIG_TOPIC L.CAYENNE_ALL_CHANNELS, Ret.code (env.subscribe (s + 1))⟩] ++
  failNote L "Subscription to Config topic failed, error:%d\n" (env.subscribe (s + 1)) ++
  [⟨Call.publishData L.SYS_VERSION_TOPIC L.CAYENNE_NO_CHANNEL none none
      (Value.str (some L.CAYENNE_VERSION)), Ret.code (env.publishData p)⟩,
   ⟨Call.publishData L.SYS_MODEL_TOPIC L.CAYENNE_NO_CHANNEL none none
      (Value.str (some "mbedDevice")), Ret.code (env.publishData (p + 1))⟩]

/-- The world left by a `connectClient` that succeeds after `k` failed transport connects. -/
def connectedWorld (L : Lib) (env : Env) (k : Nat) (w : World) : World :=
  { w with
    trace := w.trace ++
      connectedEvents L env k w.nNetworkConnect w.nMqttConnect w.nSubscribe w.nPublishData
    nNetworkConnect := w.nNetworkConnect + (k + 1)
    nMqttConnect := w.nMqttConnect + 1
    nSubscribe := w.nSubscribe + 1 + 1
    nPublishData := w.nPublishData + 1 + 1 }

/-- The events of the scheduled telemetry set, entered with `p` data publishes made so far:
one publish per metric on channels 0, 1 and 2, each followed by its failure message when it did
not return `CAYENNE_SUCCESS`. -/
def telemetryEvents (L : Lib) (env : Env) (p : Nat) : List Event :=
  [⟨Call.publishData L.DATA_TOPIC 0 (some L.TEMPERATURE) (some L.CELSIUS) (Value.double 305 (-1)),
    Ret.code (env.publishData p)⟩] ++
  failNote L "Publish temperature failed, error: %d\n" (env.publishData p) ++
  [⟨Call.publishData L.DATA_TOPIC 1 (some L.LUMINOSITY) (some L.LUX) (Value.int 1000),
    Ret.code (env.publishData (p + 1))⟩] ++
  failNote L "Publish luminosity failed, error: %d\n" (env.publishData (p + 1)) ++
  [⟨Call.publishData L.DATA_TOPIC 2 (some L.BAROMETRIC_PRESSURE) (some L.HECTOPASCAL)
      (Value.int 800), Ret.code (env.publishData (p + 1 + 1))⟩] ++
  failNote L "Publish barometric pressure failed, error: %d\n" (env.publishData (p + 1 + 1))

/-! ## The session over the cycles of the loop -/

/-- Whether a call is `mqttClient.yield`. -/
def Call.isYield : Call → Bool
  | Call.mqtt_yield _ => true
  | _ => false

/-- The number of yields in a trace, which is the number of cycles begun. -/
def yields (tr : List Event) : Nat := tr.countP (fun e => e.call.isYield)

/-- Where the session stands within a cycle of the loop, as the program knows it from its
polls.  `boundary`: between two cycles.  `yielded`: the yield of the cycle has been entered.
`transportUp`: the transport has just been polled and reports connected.  `live`: both layers
have been polled and report connected.  `firing`: the timer has reported expiry.  `detected`: a
liveness poll has just reported a layer not connected.  `transportClosed`: `network.disconnect`
has been called.  `reconnecting`: `mqttClient.disconnect` has been called too, and the protocol
connect has not succeeded yet.  `reconnected`: the protocol connect has succeeded again. -/
inductive Session where
  | boundary
  | yielded
  | transportUp
  | live
  | firing
  | detected
  | transportClosed
  | reconnecting
  | reconnected
  deriving DecidableEq, Repr

/-- The session is Established except from a failed liveness poll until the next successful
protocol connect. -/
def Session.established : Session → Bool
  | Session.detected => false
  | Session.transportClosed => false
  | Session.reconnecting => false
  | _ => true

/-- The calls the session admits in each state, and the state each leads to; `none` when the
call is not admitted.  A cycle starts with the yield, during which only publishes are admitted;
it goes on with the poll of the transport and, only if that reports connected, the poll of the
protocol layer.  A poll that reports not connected admits only `network.disconnect`, then only
`mqttClient.disconnect`, then only `network.connect`, `wait` and `mqttClient.connect`, until the
latter returns `MQTT::SUCCESS`; then come subscribes and publishes.  The cycle ends with the
poll of the timer, followed when the timer has expired by publishes and the rearming.
A `printf` is admitted everywhere and changes nothing. -/
def Session.step (L : Lib) (s : Session) (e : Event) : Option Session :=
  match s, e.call, e.ret with
  | s, Call.printf _ _, _ => some s
  | Session.boundary, Call.mqtt_yield _, _ => some Session.yielded
  | Session.yielded, Call.publishResponse _ _ _ _, _ => some Session.yielded
  | Session.yielded, Call.publishData _ _ _ _ _, _ => some Session.yielded
  | Session.yielded, Call.network_connected, Ret.flag b =>
    some (if b then Session.transportUp else Session.detected)
  | Session.transportUp, Call.mqtt_connected, Ret.flag b =>
    some (if b then Session.live else Session.detected)
  | Session.detected, Call.network_disconnect, _ => some Session.transportClosed
  | Session.transportClosed, Call.mqtt_disconnect, _ => some Session.reconnecting
  | Session.reconnecting, Call.network_connect _ _, _ => some Session.reconnecting
  | Session.reconnecting, Call.wait _, _ => some Session.reconnecting
  | Session.reconnecting, Call.mqtt_connect, Ret.code rc =>
    some (if rc = L.MQTT_SUCCESS then Session.reconnected else Session.reconnecting)
  | Session.reconnected, Call.subscribe _ _, _ => some Session.reconnected
  | Session.reconnected, Call.publishData _ _ _ _ _, _ => some Session.reconnected
  | Session.reconnected, Call.timer_expired, Ret.flag b =>
    some (if b then Session.firing else Session.boundary)
  | Session.live, Call.timer_expired, Ret.flag b =>
    some (if b then Session.firing else Session.boundary)
  | Session.firing, Call.publishData _ _ _ _ _, _ => some Session.firing
  | Session.firing, Call.timer_countdown_ms _, _ => some Session.boundary
  | _, _, _ => none

/-- Run the session over a list of events, from state `s`: the state reached, or `none` as soon
as a call is made that the current state does not admit. -/
def Session.run (L : Lib) : Session → List Event → Option Session
  | s, [] => some s
  | s, e :: es =>
    match Session.step L s e with
    | some s2 => Session.run L s2 es
    | none => none

/-- The world `w2` extends `w` by events that the session admits from state `s`, ending in
state `s2`, `c` of them being yields. -/
def Admits (L : Lib) (s : Session) (w w2 : World) (s2 : Session) (c : Nat) : Prop :=
  ∃ evs, w2.trace = w.trace ++ evs ∧ Session.run L s evs = some s2 ∧ yields evs = c

/-! ## The schedule of the periodic timer -/

/-- Whether a call belongs to the telemetry loop: the yield, or a call on the timer. -/
def Call.isLoopCall : Call → Bool
  | Call.mqtt_yield _ => true
  | Call.timer_new _ => true
  | Call.timer_expired => true
  | Call.timer_countdown_ms _ => true
  | _ => false

/-- Whether a call is a data publish that carries a type tag, as the publishes of the
scheduled telemetry set do; the publishes of the handler and of the descriptors carry none. -/
def Call.isTelemetry : Call → Bool
  | Call.publishData _ _ (some _) _ _ => true
  | _ => false

/-- The scheduled telemetry set, in order: temperature on channel 0, luminosity on channel 1,
barometric pressure on channel 2. -/
def scheduled (L : Lib) : Nat → Call
  | 0 => Call.publishData L.DATA_TOPIC 0 (some L.TEMPERATURE) (some L.CELSIUS) (Value.double 305 (-1))
  | 1 => Call.publishData L.DATA_TOPIC 1 (some L.LUMINOSITY) (some L.LUX) (Value.int 1000)
  | _ => Call.publishData L.DATA_TOPIC 2 (some L.BAROMETRIC_PRESSURE) (some L.HECTOPASCAL)
      (Value.int 800)

/-- Whether an event leaves the schedule alone: it is neither a yield, nor a call on the timer,
nor a telemetry publish. -/
def Event.quiet (e : Event) : Bool := !(e.call.isLoopCall || e.call.isTelemetry)

/-- Where the schedule stands: `idle` between two cycles, `awaiting` from the yield of a cycle
to its poll of the timer, `firing k` when the timer has reported expiry and `k` of the scheduled
publishes have been made. -/
inductive TimerPhase where
  | idle
  | awaiting
  | firing (k : Nat)
  deriving DecidableEq, Repr

/-- Modelled from the spec: the state of the periodic timer as the specification describes
it, a deadline (the time of the latest arming plus the duration of 5000 ms), together with the
place in the cycle. -/
structure Schedule where
  deadline : Nat
  phase : TimerPhase
  deriving DecidableEq, Repr

/-- Modelled from the spec: what the schedule admits of an event made at logical time `i`.
Idle, only the yield that starts a cycle.  Awaiting, any quiet event, and one poll of the timer,
which must report expiry exactly when the clock has reached the deadline: reporting expiry it
starts the firing, otherwise the cycle is over.  Firing, the three scheduled publishes in order,
whatever they return, each possibly followed by a `printf`, and then `countdown_ms(5000)`, made
not before the deadline that has expired, which sets the deadline 5000 ms after the time of that
call and ends the cycle.  Anything else is not admitted. -/
def Schedule.step (L : Lib) (env : Env) (s : Schedule) (i : Nat) (e : Event) : Option Schedule :=
  match s.phase with
  | TimerPhase.idle =>
    if e.call.isYield then some ⟨s.deadline, TimerPhase.awaiting⟩ else none
  | TimerPhase.awaiting =>
    if e.quiet then some s
    else if e = ⟨Call.timer_expired, Ret.flag (decide (s.deadline ≤ env.now_ms i))⟩ then
      some ⟨s.deadline,
        if s.deadline ≤ env.now_ms i then TimerPhase.firing 0 else TimerPhase.idle⟩
    else none
  | TimerPhase.firing k =>
    if e.call.isPrintf then some s
    else if k < 3 then
      if e.call = scheduled L k then some ⟨s.deadline, TimerPhase.firing (k + 1)⟩ else none
    else if e.call = Call.timer_countdown_ms 5000 ∧ s.deadline ≤ env.now_ms i then
      some ⟨env.now_ms i + 5000, TimerPhase.idle⟩
    else none

/-- Run the schedule over a list of events, the first made at logical time `i`. -/
def Schedule.run (L : Lib) (env : Env) : Schedule → Nat → List Event → Option Schedule
  | s, _, [] => some s
  | s, i, e :: es =>
    match Schedule.step L env s i e with
    | some s2 => Schedule.run L env s2 (i + 1) es
    | none => none

/-- The world `w2` extends `w` by quiet events only. -/
def Quiet (w w2 : World) : Prop :=
  ∃ evs, w2.trace = w.trace ++ evs ∧ ∀ e ∈ evs, e.quiet = true

/-- The world `w2` extends `w` by events that the schedule admits from state `s`, ending in
state `s2`, `c` of them being yields. -/
def Keeps (L : Lib) (env : Env) (s : Schedule) (w w2 : World) (s2 : Schedule) (c : Nat) : Prop :=
  ∃ evs, w2.trace = w.trace ++ evs ∧ Schedule.run L env s w.trace.length evs = some s2 ∧
    yields evs = c

/-- Whether a call is a subscribe or a publish. -/
def Call.isSubscribeOrPublish (c : Call) : Bool :=
  c.isSubscribe || c.isPublishData || c.isPublishResponse

/-! ## Lemmas on `outputMessage` -/

theorem optField_eq_match (fmt : String) (o : Option String) :
    (match o with
      | some s => [printf fmt [Arg.str s]]
      | none => []) = optField fmt o := by
  cases o <;> rfl

theorem outputValues_eq (m : MessageData) (fuel i : Nat) :
    outputValues m fuel i =
      (List.range' i (min fuel (m.valueCount - i))).flatMap (fun j => entryFields (m.values j)) := by
  induction fuel generalizing i with
  | zero => simp [outputValues]
  | succ fuel ih =>
    by_cases h : i < m.valueCount
    · have hm : min (fuel + 1) (m.valueCount - i) = min fuel (m.valueCount - (i + 1)) + 1 := by
        omega
      rw [hm, List.range'_succ]
      simp [outputValues, h, ih, optField_eq_match, entryFields, MessageData.getValue,
        MessageData.getUnit]
    · have hm : min (fuel + 1) (m.valueCount - i) = 0 := by omega
      simp [outputValues, h, hm]

theorem outputMessage_eq_messageLine (L : Lib) (m : MessageData) :
    outputMessage L m = messageLine L m := by
  simp [outputMessage, messageLine, outputValues_eq, optField_eq_match, topicField,
    List.range_eq_range']

theorem isPrintf_of_mem_optField {fmt : String} {o : Option String} {e : Event}
    (h : e ∈ optField fmt o) : e.call.isPrintf = true := by
  cases o with
  | none => simp [optField] at h
  | some s =>
    simp [optField] at h
    subst h
    rfl

theorem isPrintf_of_mem_outputMessage {L : Lib} {m : MessageData} {e : Event}
    (h : e ∈ outputMessage L m) : e.call.isPrintf = true := by
  rw [outputMessage_eq_messageLine] at h
  simp only [messageLine, List.mem_append, List.mem_flatMap, entryFields, List.mem_cons,
    List.mem_singleton, List.not_mem_nil, or_false] at h
  rcases h with ((((h | h) | h) | h) | h) | h
  · rcases h with h | h
    · subst h
      unfold topicField
      split_ifs <;> rfl
    · subst h; rfl
  · exact isPrintf_of_mem_optField h
  · exact isPrintf_of_mem_optField h
  · obtain ⟨_, _, h | h⟩ := h
    · exact isPrintf_of_mem_optField h
    · exact isPrintf_of_mem_optField h
  · exact isPrintf_of_mem_optField h
  · subst h; rfl

theorem outbound_append (a b : List Event) : outbound (a ++ b) = outbound a ++ outbound b := by
  simp [outbound, calls]

theorem outbound_outputMessage (L : Lib) (m : MessageData) : outbound (outputMessage L m) = [] := by
  simp only [outbound, calls, List.filter_eq_nil_iff, List.mem_map]
  rintro c ⟨e, he, rfl⟩
  simp [isPrintf_of_mem_outputMessage he]

theorem since_append (w w2 : World) (evs : List Event) (h : w2.trace = w.trace ++ evs) :
    w.since w2 = evs := by
  simp [World.since, h]

theorem printf_eq_iff (f g : String) (a b : List Arg) : printf f a = printf g b ↔ f = g ∧ a = b := by
  simp [printf, Event.plain]

theorem mem_optField (f g : String) (s : String) (o : Option String) :
    printf f [Arg.str s] ∈ optField g o ↔ f = g ∧ o = some s := by
  cases o with
  | none => simp [optField]
  | some t =>
    simp only [optField, Option.toList_some, List.map_cons, List.map_nil, List.mem_singleton,
      printf_eq_iff, List.cons.injEq, Arg.str.injEq, and_true, Option.some.injEq]
    constructor
    · rintro ⟨h1, h2⟩; exact ⟨h1, h2.symm⟩
    · rintro ⟨h1, h2⟩; exact ⟨h1, h2.symm⟩

theorem mem_messageLine (L : Lib) (m : MessageData) (f s : String) :
    printf f [Arg.str s] ∈ messageLine L m ↔
      (f = " clientID=%s" ∧ m.clientID = some s) ∨ (f = " type=%s" ∧ m.type = some s) ∨
      (∃ i, i < m.valueCount ∧
        ((f = " value=%s" ∧ (m.values i).value = some s) ∨
         (f = " unit=%s" ∧ (m.values i).unit = some s))) ∨
      (f = " id=%s" ∧ m.id = some s) := by
  have htopic : printf f [Arg.str s] ≠ topicField L m.topic := by
    unfold topicField
    split_ifs <;> simp [printf_eq_iff]
  have hch : printf f [Arg.str s] ≠ printf " channel=%d" [Arg.int m.channel] := by
    simp [printf_eq_iff]
  have hnl : printf f [Arg.str s] ≠ printf "\n" [] := by
    simp [printf_eq_iff]
  simp only [messageLine, List.mem_append, List.mem_cons, List.mem_singleton, List.not_mem_nil,
    or_false, htopic, hch, hnl, false_or, mem_optField, List.mem_flatMap, List.mem_range,
    entryFields]
  simp only [or_assoc]

/-! ## `outputMessage`: the derived line -/

/-- Claim C9: for every message, the `printf` calls of `outputMessage` are the line of the
specification: the entries visited are exactly those of index 0 .. valueCount-1, in order, and
no other index, so that replacing the entries at or beyond `valueCount` by anything leaves the
line unchanged; a unit field is printed exactly for the entries below `valueCount` that have a
unit, a value field exactly for those that have a value, and the client id, type and request id
fields exactly when the message has them. -/
theorem outputMessage_fields (L : Lib) (m : MessageData) :
    outputMessage L m = messageLine L m ∧
    (∀ f : Nat → CayenneValuePair,
      outputMessage L { m with values := fun i => if i < m.valueCount then m.values i else f i } =
        outputMessage L m) ∧
    (∀ u, printf " unit=%s" [Arg.str u] ∈ outputMessage L m ↔
      ∃ i, i < m.valueCount ∧ m.getUnit i = some u) ∧
    (∀ v, printf " value=%s" [Arg.str v] ∈ outputMessage L m ↔
      ∃ i, i < m.valueCount ∧ m.getValue i = some v) ∧
    (∀ c, printf " clientID=%s" [Arg.str c] ∈ outputMessage L m ↔ m.clientID = some c) ∧
    (∀ t, printf " type=%s" [Arg.str t] ∈ outputMessage L m ↔ m.type = some t) ∧
    (∀ r, printf " id=%s" [Arg.str r] ∈ outputMessage L m ↔ m.id = some r) := by
  refine ⟨outputMessage_eq_messageLine L m, ?_, ?_, ?_, ?_, ?_, ?_⟩
  · intro f
    rw [outputMessage_eq_messageLine, outputMessage_eq_messageLine]
    simp only [messageLine]
    congr 3
    apply List.flatMap_congr
    intro i hi
    rw [if_pos (List.mem_range.mp hi)]
  all_goals
    intro x
    rw [outputMessage_eq_messageLine, mem_messageLine]
    simp [MessageData.getUnit, MessageData.getValue]

/-! ## `messageArrived` -/

theorem messageArrived_command_trace (L : Lib) (env : Env) (m : MessageData) (w : World)
    (h : m.topic = L.COMMAND_TOPIC) :
    ∃ p1 p2 : List Event, outbound p1 = [] ∧ outbound p2 = [] ∧
      (messageArrived L env m w).trace = w.trace ++ (outputMessage L m ++
        [⟨Call.publishResponse m.channel m.id none m.clientID,
          Ret.code (env.publishResponse w.nPublishResponse)⟩] ++ p1 ++
        [⟨Call.publishData L.DATA_TOPIC m.channel none none (Value.str (m.getValue 0)),
          Ret.code (env.publishData w.nPublishData)⟩] ++ p2) := by
  by_cases h1 : env.publishResponse w.nPublishResponse = L.CAYENNE_SUCCESS <;>
  by_cases h2 : env.publishData w.nPublishData = L.CAYENNE_SUCCESS
  · exact ⟨[], [], rfl, rfl, by
      simp [messageArrived, h, publishResponse, publishData, World.emit, h1, h2]⟩
  · exact ⟨[], [printf "Publish state failure, error: %d\n"
      [Arg.int (env.publishData w.nPublishData)]], rfl, rfl, by
      simp [messageArrived, h, publishResponse, publishData, World.emit, h1, h2]⟩
  · exact ⟨[printf "Response failure, error: %d\n"
      [Arg.int (env.publishResponse w.nPublishResponse)]], [], rfl, rfl, by
      simp [messageArrived, h, publishResponse, publishData, World.emit, h1, h2]⟩
  · exact ⟨[printf "Response failure, error: %d\n"
      [Arg.int (env.publishResponse w.nPublishResponse)]],
      [printf "Publish state failure, error: %d\n"
      [Arg.int (env.publishData w.nPublishData)]], rfl, rfl, by
      simp [messageArrived, h, publishResponse, publishData, World.emit, h1, h2]⟩

theorem messageArrived_command_outbound (L : Lib) (env : Env) (m : MessageData) (w : World)
    (h : m.topic = L.COMMAND_TOPIC) :
    outbound (w.since (messageArrived L env m w)) =
      [Call.publishResponse m.channel m.id none m.clientID,
       Call.publishData L.DATA_TOPIC m.channel none none (Value.str (m.getValue 0))] := by
  obtain ⟨p1, p2, h1, h2, ht⟩ := messageArrived_command_trace L env m w h
  rw [since_append w _ _ ht]
  simp only [outbound_append, outbound_outputMessage, h1, h2]
  rfl

/-- Claim C1: handling a Command message with `messageArrived` issues exactly one
`publishResponse` call, and that call carries the channel, the request id and the client id of
the message (each absent when the message has none), with no error text; this holds for every
environment, hence whatever result codes the publish calls return. -/
theorem messageArrived_one_response (L : Lib) (env : Env) (m : MessageData) (w : World)
    (h : m.topic = L.COMMAND_TOPIC) :
    (calls (w.since (messageArrived L env m w))).filter Call.isPublishResponse =
      [Call.publishResponse m.channel m.id none m.clientID] := by
  have ho := messageArrived_command_outbound L env m w h
  have hsub : ∀ tr : List Event,
      (calls tr).filter Call.isPublishResponse = (outbound tr).filter Call.isPublishResponse := by
    intro tr
    simp only [outbound, List.filter_filter]
    congr 1
    funext c
    cases c <;> rfl
  rw [hsub, ho]
  rfl

/-- Witness for C1: the scenario's Command message (channel 3, request id "42", no client id),
handled at process start while every publish fails with code -1. -/
theorem messageArrived_one_response_witness :
    scenarioCommand.topic = exampleLib.COMMAND_TOPIC ∧
    (calls (World.init.since (messageArrived exampleLib
        { calmEnv with publishResponse := fun _ => -1, publishData := fun _ => -1 }
        scenarioCommand World.init))).filter Call.isPublishResponse =
      [Call.publishResponse 3 (some "42") none none] :=
  ⟨rfl, messageArrived_one_response exampleLib _ scenarioCommand World.init rfl⟩

/-- Claim C2: for a Command message the calls of `messageArrived` on the collaborators are, in
this order, the Response publish and then one Data publish on `DATA_TOPIC` for the same channel,
carrying the first value of the message with no type and no unit.  This holds in every
environment, so also when the Response publish returned an error, and the pair is a function of
the message alone: handling the same message again, in the world the first handling left and
under any environment, yields the same pair. -/
theorem messageArrived_response_then_data (L : Lib) (env env2 : Env) (m : MessageData) (w : World)
    (h : m.topic = L.COMMAND_TOPIC) :
    outbound (w.since (messageArrived L env m w)) =
      [Call.publishResponse m.channel m.id none m.clientID,
       Call.publishData L.DATA_TOPIC m.channel none none (Value.str (m.getValue 0))] ∧
    outbound ((messageArrived L env m w).since
        (messageArrived L env2 m (messageArrived L env m w))) =
      outbound (w.since (messageArrived L env m w)) := by
  rw [messageArrived_command_outbound L env m w h,
    messageArrived_command_outbound L env2 m _ h]
  exact ⟨rfl, rfl⟩

/-- Witness for C2: the scenario message, channel 3, request id "42", value "1", gives the
Response for request "42" with no error and then the Data publish of "1" on channel 3, also
when the Response publish fails. -/
theorem messageArrived_response_then_data_witness :
    scenarioCommand.topic = exampleLib.COMMAND_TOPIC ∧
    outbound (World.init.since (messageArrived exampleLib
        { calmEnv with publishResponse := fun _ => -1 } scenarioCommand World.init)) =
      [Call.publishResponse 3 (some "42") none none,
       Call.publishData exampleLib.DATA_TOPIC 3 none none (Value.str (some "1"))] :=
  ⟨rfl, (messageArrived_response_then_data exampleLib _ calmEnv scenarioCommand World.init rfl).1⟩

theorem messageArrived_other_topic_eq (L : Lib) (env : Env) (m : MessageData) (w : World)
    (h : m.topic ≠ L.COMMAND_TOPIC) : messageArrived L env m w = w.emit (outputMessage L m) := by
  simp [messageArrived, h]

/-- Claim C10: for a message whose topic is not Command, `messageArrived` only prints the
message: the events it adds are the `printf` calls of `outputMessage`, so it makes no call on a
collaborator (no publish, connect, disconnect or subscribe) and leaves every call counter and
the handler registration as they were. -/
theorem messageArrived_other_topic (L : Lib) (env : Env) (m : MessageData) (w : World)
    (h : m.topic ≠ L.COMMAND_TOPIC) :
    messageArrived L env m w = w.emit (outputMessage L m) ∧
    w.since (messageArrived L env m w) = outputMessage L m ∧
    outbound (w.since (messageArrived L env m w)) = [] := by
  have h1 : messageArrived L env m w = w.emit (outputMessage L m) := by
    simp [messageArrived, h]
  have h2 : w.since (messageArrived L env m w) = outputMessage L m :=
    since_append w _ _ (by rw [h1]; rfl)
  exact ⟨h1, h2, by rw [h2]; exact outbound_outputMessage L m⟩

/-- Witness for C10: a Config message handled at process start. -/
theorem messageArrived_other_topic_witness :
    scenarioConfig.topic ≠ exampleLib.COMMAND_TOPIC ∧
    outbound (World.init.since (messageArrived exampleLib calmEnv scenarioConfig World.init)) =
      [] :=
  ⟨by decide, (messageArrived_other_topic exampleLib calmEnv scenarioConfig World.init
    (by decide)).2.2⟩

/-! ## `connectClient` -/

theorem connectLoop_fails_then_ok (L : Lib) (env : Env) (k : Nat) :
    ∀ (N : Nat) (w : World), k < N →
      (∀ j, j < k → env.network_connect (w.nNetworkConnect + j) ≠ 0) →
      env.network_connect (w.nNetworkConnect + k) = 0 →
      connectLoop L env N w = Run.done 0 { w with
        trace := w.trace ++ (failedConnects L env w.nNetworkConnect k ++
          [connectAttempt L env (w.nNetworkConnect + k)])
        nNetworkConnect := w.nNetworkConnect + (k + 1) } := by
  induction k with
  | zero =>
    intro N w hN _ hok
    obtain ⟨N, rfl⟩ : ∃ M, N = M + 1 := ⟨N - 1, by omega⟩
    simp only [Nat.add_zero] at hok
    simp [connectLoop, network_connect, hok, failedConnects, connectAttempt]
  | succ k ih =>
    intro N w hN hfail hok
    obtain ⟨N, rfl⟩ : ∃ M, N = M + 1 := ⟨N - 1, by omega⟩
    have h0 : env.network_connect w.nNetworkConnect ≠ 0 := by
      simpa using hfail 0 (by omega)
    have hstep := ih N
      (wait 2 ((network_connect L env w).2.emit
        [printf "TCP connect failed, error: %d\n" [Arg.int (network_connect L env w).1]]))
      (by omega)
      (by
        intro j hj
        have := hfail (j + 1) (by omega)
        simpa [wait, World.emit, network_connect, Nat.add_assoc, Nat.add_comm 1 j] using this)
      (by
        simpa [wait, World.emit, network_connect, Nat.add_assoc, Nat.add_comm 1 k] using hok)
    rw [connectLoop]
    simp only [network_connect, ne_eq, h0, not_false_eq_true, ↓reduceIte]
    simp only [network_connect] at hstep
    rw [hstep]
    simp [wait, World.emit, failedConnects, List.range'_succ, connectAttempt, Nat.add_assoc,
      Nat.add_comm 1 k, Nat.add_comm 1 (k + 1)]

theorem collab_append (a b : List Event) : collab (a ++ b) = collab a ++ collab b := by
  simp [collab]

theorem collab_failNote (L : Lib) (fmt : String) (rc : Int) : collab (failNote L fmt rc) = [] := by
  unfold failNote
  split_ifs <;> rfl

theorem failedConnects_succ (L : Lib) (env : Env) (c k : Nat) :
    failedConnects L env c (k + 1) =
      [connectAttempt L env c,
       printf "TCP connect failed, error: %d\n" [Arg.int (env.network_connect c)],
       Event.plain (Call.wait 2)] ++ failedConnects L env (c + 1) k := by
  simp [failedConnects, List.range'_succ]

theorem collab_failedConnects (L : Lib) (env : Env) (c k : Nat) :
    collab (failedConnects L env c k) =
      (List.range' c k).flatMap (fun i => [connectAttempt L env i, Event.plain (Call.wait 2)]) := by
  induction k generalizing c with
  | zero => simp [failedConnects, collab]
  | succ k ih =>
    rw [failedConnects_succ, collab_append, ih (c + 1), List.range'_succ, List.flatMap_cons]
    rfl

theorem connectClient_mqtt_fail (L : Lib) (env : Env) (k N : Nat) (w : World) (hN : k < N)
    (hfail : ∀ j, j < k → env.network_connect (w.nNetworkConnect + j) ≠ 0)
    (hok : env.network_connect (w.nNetworkConnect + k) = 0)
    (he : env.mqtt_connect w.nMqttConnect ≠ L.MQTT_SUCCESS) :
    connectClient L env N w = Run.done (env.mqtt_connect w.nMqttConnect) { w with
      trace := w.trace ++
        ([printf "Connecting to %s:%d\n" [Arg.str L.CAYENNE_DOMAIN, Arg.int L.CAYENNE_PORT]] ++
          failedConnects L env w.nNetworkConnect k ++
          [connectAttempt L env (w.nNetworkConnect + k),
           ⟨Call.mqtt_connect, Ret.code (env.mqtt_connect w.nMqttConnect)⟩,
           printf "MQTT connect failed, error: %d\n" [Arg.int (env.mqtt_connect w.nMqttConnect)]])
      nNetworkConnect := w.nNetworkConnect + (k + 1)
      nMqttConnect := w.nMqttConnect + 1 } := by
  have h := connectLoop_fails_then_ok L env k N
    (w.emit [printf "Connecting to %s:%d\n" [Arg.str L.CAYENNE_DOMAIN, Arg.int L.CAYENNE_PORT]])
    hN hfail hok
  simp only [connectClient, h]
  simp [World.emit, mqtt_connect, he]

theorem connectClient_ok (L : Lib) (env : Env) (k N : Nat) (w : World) (hN : k < N)
    (hfail : ∀ j, j < k → env.network_connect (w.nNetworkConnect + j) ≠ 0)
    (hok : env.network_connect (w.nNetworkConnect + k) = 0)
    (he : env.mqtt_connect w.nMqttConnect = L.MQTT_SUCCESS) :
    connectClient L env N w = Run.done L.CAYENNE_SUCCESS (connectedWorld L env k w) := by
  have h := connectLoop_fails_then_ok L env k N
    (w.emit [printf "Connecting to %s:%d\n" [Arg.str L.CAYENNE_DOMAIN, Arg.int L.CAYENNE_PORT]])
    hN hfail hok
  simp only [connectClient, h]
  by_cases h1 : env.subscribe w.nSubscribe = L.CAYENNE_SUCCESS <;>
  by_cases h2 : env.subscribe (w.nSubscribe + 1) = L.CAYENNE_SUCCESS <;>
  simp [World.emit, mqtt_connect, he, subscribe, publishData, h1, h2, failNote, connectedWorld,
    connectedEvents]

theorem collab_connectedEvents (L : Lib) (env : Env) (k c m s p : Nat) :
    collab (connectedEvents L env k c m s p) =
      (List.range' c k).flatMap (fun i => [connectAttempt L env i, Event.plain (Call.wait 2)]) ++
      [connectAttempt L env (c + k),
       ⟨Call.mqtt_connect, Ret.code (env.mqtt_connect m)⟩,
       ⟨Call.subscribe L.COMMAND_TOPIC L.CAYENNE_ALL_CHANNELS, Ret.code (env.subscribe s)⟩,
       ⟨Call.subscribe L.CONFIG_TOPIC L.CAYENNE_ALL_CHANNELS, Ret.code (env.subscribe (s + 1))⟩,
       ⟨Call.publishData L.SYS_VERSION_TOPIC L.CAYENNE_NO_CHANNEL none none
          (Value.str (some L.CAYENNE_VERSION)), Ret.code (env.publishData p)⟩,
       ⟨Call.publishData L.SYS_MODEL_TOPIC L.CAYENNE_NO_CHANNEL none none
          (Value.str (some "mbedDevice")), Ret.code (env.publishData (p + 1))⟩] := by
  simp only [connectedEvents, collab_append, collab_failedConnects, collab_failNote,
    List.append_nil]
  simp [collab, printf, Event.plain, Call.isPrintf, connectAttempt]

theorem reconnect_ok (L : Lib) (env : Env) (k N : Nat) (w : World) (hN : k < N)
    (hfail : ∀ j, j < k → env.network_connect (w.nNetworkConnect + j) ≠ 0)
    (hok : env.network_connect (w.nNetworkConnect + k) = 0)
    (he : env.mqtt_connect w.nMqttConnect = L.MQTT_SUCCESS) :
    reconnect L env N w = Run.done () (connectedWorld L env k
      ((mqtt_disconnect (network_disconnect w)).emit [printf "Reconnecting\n" []])) := by
  obtain ⟨M, rfl⟩ : ∃ M, N = M + 1 := ⟨N - 1, by omega⟩
  have h := connectClient_ok L env k (M + 1)
    ((mqtt_disconnect (network_disconnect w)).emit [printf "Reconnecting\n" []]) hN hfail hok he
  simp only [reconnect, reconnectLoop, h]
  simp

theorem filter_failNote (L : Lib) (fmt : String) (rc : Int) (p : Event → Bool)
    (hp : ∀ f a, p (printf f a) = false) : (failNote L fmt rc).filter p = [] := by
  unfold failNote
  split_ifs <;> simp [hp]

theorem filter_failedConnects (L : Lib) (env : Env) (p : Event → Bool)
    (hp : ∀ f a, p (printf f a) = false) (hc : ∀ i, p (connectAttempt L env i) = false)
    (hw : p (Event.plain (Call.wait 2)) = false) (c k : Nat) :
    (failedConnects L env c k).filter p = [] := by
  induction k generalizing c with
  | zero => simp [failedConnects]
  | succ k ih => simp [failedConnects_succ, ih, hp, hc, hw]

/-- Claim C6: subscription is best-effort.  When the transport connect succeeds (after any number
`k` of failed attempts within the budget) and the protocol connect succeeds, `connectClient`
returns `CAYENNE_SUCCESS` whatever the two subscribe calls and the descriptor publishes return
(the environment is otherwise arbitrary), and its subscribe calls are exactly the Command
subscription followed by the Config subscription, each on all channels: the Config subscription
is attempted whatever the Command subscription returned. -/
theorem connectClient_subscribe_best_effort (L : Lib) (env : Env) (k N : Nat) (w : World)
    (hN : k < N)
    (hfail : ∀ j, j < k → env.network_connect (w.nNetworkConnect + j) ≠ 0)
    (hok : env.network_connect (w.nNetworkConnect + k) = 0)
    (he : env.mqtt_connect w.nMqttConnect = L.MQTT_SUCCESS) :
    ∃ w2, connectClient L env N w = Run.done L.CAYENNE_SUCCESS w2 ∧
      (w.since w2).filter (fun e => e.call.isSubscribe) =
        [⟨Call.subscribe L.COMMAND_TOPIC L.CAYENNE_ALL_CHANNELS,
            Ret.code (env.subscribe w.nSubscribe)⟩,
         ⟨Call.subscribe L.CONFIG_TOPIC L.CAYENNE_ALL_CHANNELS,
            Ret.code (env.subscribe (w.nSubscribe + 1))⟩] := by
  refine ⟨_, connectClient_ok L env k N w hN hfail hok he, ?_⟩
  rw [since_append w _ _ rfl]
  simp only [connectedEvents, List.filter_append]
  rw [filter_failedConnects L env _ (fun _ _ => rfl) (fun _ => rfl) rfl,
    filter_failNote L _ _ _ (fun _ _ => rfl), filter_failNote L _ _ _ (fun _ _ => rfl)]
  rfl

/-- Witness for C6: two failed transport connects, then success; both subscribes and both
descriptor publishes fail with -1, and `connectClient` still returns `CAYENNE_SUCCESS` after
attempting both subscriptions. -/
theorem connectClient_subscribe_best_effort_witness :
    flakyEnv.subscribe 0 ≠ exampleLib.CAYENNE_SUCCESS ∧
    ∃ w2, connectClient exampleLib flakyEnv 3 World.init =
        Run.done exampleLib.CAYENNE_SUCCESS w2 ∧
      (World.init.since w2).filter (fun e => e.call.isSubscribe) =
        [⟨Call.subscribe exampleLib.COMMAND_TOPIC exampleLib.CAYENNE_ALL_CHANNELS, Ret.code (-1)⟩,
         ⟨Call.subscribe exampleLib.CONFIG_TOPIC exampleLib.CAYENNE_ALL_CHANNELS,
            Ret.code (-1)⟩] :=
  ⟨by decide, connectClient_subscribe_best_effort exampleLib flakyEnv 2 3 World.init (by decide)
    (by decide) (by decide) (by decide)⟩

theorem calls_filter_nil (tr : List Event) (p : Call → Bool)
    (h : tr.filter (fun e => p e.call) = []) : (calls tr).filter p = [] := by
  simp only [calls, List.filter_map, Function.comp_def, h, List.map_nil]

theorem exitPath_eq (env : Env) (v : World) :
    exitPath env v = v.emit (exitEvents env v.trace.length) := by
  by_cases h1 : env.mqtt_up v.trace.length = true
  · by_cases h2 : env.network_up (v.trace.length + 1 + 1) = true
    · simp [exitPath, exitEvents, mqtt_connected, network_connected, mqtt_disconnect,
        network_disconnect, World.emit, h1, h2]
    · simp [exitPath, exitEvents, mqtt_connected, network_connected, mqtt_disconnect,
        network_disconnect, World.emit, h1, h2]
  · by_cases h2 : env.network_up (v.trace.length + 1) = true
    · simp [exitPath, exitEvents, mqtt_connected, network_connected, mqtt_disconnect,
        network_disconnect, World.emit, h1, h2]
    · simp [exitPath, exitEvents, mqtt_connected, network_connected, mqtt_disconnect,
        network_disconnect, World.emit, h1, h2]

theorem filter_exitEvents (env : Env) (t : Nat) (p : Event → Bool)
    (h1 : ∀ r, p ⟨Call.mqtt_connected, r⟩ = false) (h2 : ∀ r, p ⟨Call.network_connected, r⟩ = false)
    (h3 : p (Event.plain Call.mqtt_disconnect) = false)
    (h4 : p (Event.plain Call.network_disconnect) = false) :
    (exitEvents env t).filter p = [] := by
  unfold exitEvents
  split_ifs <;> simp [h1, h2, h3, h4]

/-- Claim C7: when the transport connect succeeds (after any number `k` of failed attempts
within the budget) and the protocol connect returns a code `e` that is not the success code,
`connectClient` returns exactly `e`, having made no subscribe call and no publish call; and
`main`, when this happens in its first `connectClient`, returns through its exit path without
starting the loop: it makes no yield, no timer call, no subscribe and no publish.  Success is
named by two library constants, `MQTT::SUCCESS` in `connectClient` and `CAYENNE_SUCCESS` in
`main`; `e` is taken different from both. -/
theorem connectClient_protocol_failure (L : Lib) (env : Env) (k N n : Nat) (w : World) (e : Int)
    (hN : k < N)
    (hfail : ∀ j, j < k → env.network_connect (w.nNetworkConnect + j) ≠ 0)
    (hok : env.network_connect (w.nNetworkConnect + k) = 0)
    (he : env.mqtt_connect w.nMqttConnect = e)
    (h1 : e ≠ L.MQTT_SUCCESS) (h2 : e ≠ L.CAYENNE_SUCCESS) :
    (∃ w2, connectClient L env N w = Run.done e w2 ∧
      (calls (w.since w2)).filter Call.isSubscribeOrPublish = []) ∧
    (∃ w3, main L env N n w = Run.done 0 w3 ∧
      (calls (w.since w3)).filter (fun c => c.isSubscribeOrPublish || c.isLoopCall) = []) := by
  subst he
  constructor
  · refine ⟨_, connectClient_mqtt_fail L env k N w hN hfail hok h1, ?_⟩
    rw [since_append w _ _ rfl]
    apply calls_filter_nil
    simp only [List.filter_append]
    rw [filter_failedConnects L env (fun e => Call.isSubscribeOrPublish e.call)
      (fun _ _ => rfl) (fun _ => rfl) rfl]
    rfl
  · have hc := connectClient_mqtt_fail L env k N (startup w) hN hfail hok h1
    refine ⟨_, by rw [main, hc]; simp only [show (startup w).nMqttConnect = w.nMqttConnect from rfl,
      h2, ↓reduceIte]; rfl, ?_⟩
    rw [exitPath_eq, since_append w _ _ (by
      simp only [World.emit, startup, List.append_assoc]; rfl)]
    apply calls_filter_nil
    simp only [List.filter_append]
    rw [filter_failedConnects L env (fun e => e.call.isSubscribeOrPublish || e.call.isLoopCall)
      (fun _ _ => rfl) (fun _ => rfl) rfl,
      filter_exitEvents env _ _ (fun _ => rfl) (fun _ => rfl) rfl rfl]
    rfl

/-- Witness for C7: the broker refuses the protocol connect with code -1 on the first attempt
of `main`, started in the initial world. -/
theorem connectClient_protocol_failure_witness :
    refusingEnv.mqtt_connect World.init.nMqttConnect = -1 ∧
    ((∃ w2, connectClient exampleLib refusingEnv 1 World.init = Run.done (-1) w2 ∧
      (calls (World.init.since w2)).filter Call.isSubscribeOrPublish = []) ∧
    (∃ w3, main exampleLib refusingEnv 1 5 World.init = Run.done 0 w3 ∧
      (calls (World.init.since w3)).filter
        (fun c => c.isSubscribeOrPublish || c.isLoopCall) = [])) :=
  ⟨rfl, connectClient_protocol_failure exampleLib refusingEnv 0 1 5 World.init (-1) (by decide)
    (by decide) (by decide) rfl (by decide) (by decide)⟩

/-! ## The liveness check of a cycle -/

theorem collab_reconnected (L : Lib) (env : Env) (k : Nat) (w : World) (polls : List Event) :
    collab (w.since (connectedWorld L env k
      ((mqtt_disconnect (network_disconnect (w.emit polls))).emit
        [printf "Reconnecting\n" []]))) =
      collab polls ++
      [Event.plain Call.network_disconnect, Event.plain Call.mqtt_disconnect] ++
      (List.range' w.nNetworkConnect k).flatMap
        (fun i => [connectAttempt L env i, Event.plain (Call.wait 2)]) ++
      [connectAttempt L env (w.nNetworkConnect + k),
       ⟨Call.mqtt_connect, Ret.code (env.mqtt_connect w.nMqttConnect)⟩,
       ⟨Call.subscribe L.COMMAND_TOPIC L.CAYENNE_ALL_CHANNELS,
        Ret.code (env.subscribe w.nSubscribe)⟩,
       ⟨Call.subscribe L.CONFIG_TOPIC L.CAYENNE_ALL_CHANNELS,
        Ret.code (env.subscribe (w.nSubscribe + 1))⟩,
       ⟨Call.publishData L.SYS_VERSION_TOPIC L.CAYENNE_NO_CHANNEL none none
          (Value.str (some L.CAYENNE_VERSION)), Ret.code (env.publishData w.nPublishData)⟩,
       ⟨Call.publishData L.SYS_MODEL_TOPIC L.CAYENNE_NO_CHANNEL none none
          (Value.str (some "mbedDevice")), Ret.code (env.publishData (w.nPublishData + 1))⟩] := by
  rw [since_append w _
    (polls ++ ([Event.plain Call.network_disconnect, Event.plain Call.mqtt_disconnect,
      printf "Reconnecting\n" []] ++
      connectedEvents L env k w.nNetworkConnect w.nMqttConnect w.nSubscribe w.nPublishData))
    (by simp [connectedWorld, mqtt_disconnect, network_disconnect, World.emit])]
  rw [collab_append, collab_append, collab_connectedEvents]
  simp only [List.append_assoc]
  rfl

/-- Claim C3: in a cycle of `loop` in which, after the yield, `network.connected()` or
`mqttClient.connected()` reports false, and the transport connect then fails `k` times before
succeeding while the protocol connect succeeds, the liveness check terminates and the cycle goes
on to its timer check; the calls on the collaborators between the yield and the timer check are
exactly: the poll or polls that found the outage, `network.disconnect`, `mqttClient.disconnect`,
`k` times a failed `network.connect` followed by `wait(2)`, the successful `network.connect`,
`mqttClient.connect`, the subscription to Command and then to Config on all channels, and one
publish of Sys-Version and one of Sys-Model with no channel. -/
theorem checkConnection_reconnects (L : Lib) (env : Env) (t : MQTTTimer) (k N : Nat)
    (w0 w : World) (hw : w = mqtt_yield L env 1000 w0) (hN : k < N)
    (hdown : env.network_up w.trace.length = false ∨ env.mqtt_up (w.trace.length + 1) = false)
    (hfail : ∀ j, j < k → env.network_connect (w.nNetworkConnect + j) ≠ 0)
    (hok : env.network_connect (w.nNetworkConnect + k) = 0)
    (he : env.mqtt_connect w.nMqttConnect = L.MQTT_SUCCESS) :
    ∃ (w2 : World) (polls : List Event),
      checkConnection L env N w = Run.done () w2 ∧
      loopBody L env N t w0 = Run.done (checkTimer L env t w2).1 (checkTimer L env t w2).2 ∧
      (polls = [⟨Call.network_connected, Ret.flag false⟩] ∨
       polls = [⟨Call.network_connected, Ret.flag true⟩, ⟨Call.mqtt_connected, Ret.flag false⟩]) ∧
      collab (w.since w2) =
        polls ++
        [Event.plain Call.network_disconnect, Event.plain Call.mqtt_disconnect] ++
        (List.range' w.nNetworkConnect k).flatMap
          (fun i => [connectAttempt L env i, Event.plain (Call.wait 2)]) ++
        [connectAttempt L env (w.nNetworkConnect + k),
         ⟨Call.mqtt_connect, Ret.code L.MQTT_SUCCESS⟩,
         ⟨Call.subscribe L.COMMAND_TOPIC L.CAYENNE_ALL_CHANNELS,
          Ret.code (env.subscribe w.nSubscribe)⟩,
         ⟨Call.subscribe L.CONFIG_TOPIC L.CAYENNE_ALL_CHANNELS,
          Ret.code (env.subscribe (w.nSubscribe + 1))⟩,
         ⟨Call.publishData L.SYS_VERSION_TOPIC L.CAYENNE_NO_CHANNEL none none
            (Value.str (some L.CAYENNE_VERSION)), Ret.code (env.publishData w.nPublishData)⟩,
         ⟨Call.publishData L.SYS_MODEL_TOPIC L.CAYENNE_NO_CHANNEL none none
            (Value.str (some "mbedDevice")),
          Ret.code (env.publishData (w.nPublishData + 1))⟩] := by
  have key : ∀ polls : List Event, collab polls = polls →
      checkConnection L env N w = reconnect L env N (w.emit polls) →
      ∃ w2, checkConnection L env N w = Run.done () w2 ∧
        loopBody L env N t w0 = Run.done (checkTimer L env t w2).1 (checkTimer L env t w2).2 ∧
        collab (w.since w2) =
          polls ++
          [Event.plain Call.network_disconnect, Event.plain Call.mqtt_disconnect] ++
          (List.range' w.nNetworkConnect k).flatMap
            (fun i => [connectAttempt L env i, Event.plain (Call.wait 2)]) ++
          [connectAttempt L env (w.nNetworkConnect + k),
           ⟨Call.mqtt_connect, Ret.code L.MQTT_SUCCESS⟩,
           ⟨Call.subscribe L.COMMAND_TOPIC L.CAYENNE_ALL_CHANNELS,
            Ret.code (env.subscribe w.nSubscribe)⟩,
           ⟨Call.subscribe L.CONFIG_TOPIC L.CAYENNE_ALL_CHANNELS,
            Ret.code (env.subscribe (w.nSubscribe + 1))⟩,
           ⟨Call.publishData L.SYS_VERSION_TOPIC L.CAYENNE_NO_CHANNEL none none
              (Value.str (some L.CAYENNE_VERSION)), Ret.code (env.publishData w.nPublishData)⟩,
           ⟨Call.publishData L.SYS_MODEL_TOPIC L.CAYENNE_NO_CHANNEL none none
              (Value.str (some "mbedDevice")),
            Ret.code (env.publishData (w.nPublishData + 1))⟩] := by
    intro polls hp hc
    have hr := reconnect_ok L env k N (w.emit polls) hN hfail hok he
    have hcheck := hc.trans hr
    refine ⟨_, hcheck, ?_, ?_⟩
    · rw [loopBody, ← hw, hcheck]
    · rw [collab_reconnected, hp, ← he]
  by_cases hb : env.network_up w.trace.length = true
  · have hm : env.mqtt_up (w.trace.length + 1) = false := by
      rcases hdown with h | h
      · rw [hb] at h; cases h
      · exact h
    obtain ⟨w2, h1, h2, h3⟩ := key
      [⟨Call.network_connected, Ret.flag true⟩, ⟨Call.mqtt_connected, Ret.flag false⟩] rfl
      (by simp [checkConnection, network_connected, mqtt_connected, hb, hm, World.emit])
    exact ⟨w2, _, h1, h2, Or.inr rfl, h3⟩
  · have hb2 : env.network_up w.trace.length = false := by simpa using hb
    obtain ⟨w2, h1, h2, h3⟩ := key [⟨Call.network_connected, Ret.flag false⟩] rfl
      (by simp [checkConnection, network_connected, hb2])
    exact ⟨w2, _, h1, h2, Or.inl rfl, h3⟩

/-- Witness for C3: after an outage the transport connect fails twice and then succeeds
(`k = 2`), with a budget of three attempts. -/
theorem checkConnection_reconnects_witness :
    flakyEnv.network_up (mqtt_yield exampleLib flakyEnv 1000 (startup World.init)).trace.length
      = false ∧
    ∃ (w2 : World) (polls : List Event),
      checkConnection exampleLib flakyEnv 3
        (mqtt_yield exampleLib flakyEnv 1000 (startup World.init)) = Run.done () w2 ∧
      loopBody exampleLib flakyEnv 3 ⟨5000, 5000⟩ (startup World.init) =
        Run.done (checkTimer exampleLib flakyEnv ⟨5000, 5000⟩ w2).1
          (checkTimer exampleLib flakyEnv ⟨5000, 5000⟩ w2).2 ∧
      (polls = [⟨Call.network_connected, Ret.flag false⟩] ∨
       polls = [⟨Call.network_connected, Ret.flag true⟩, ⟨Call.mqtt_connected, Ret.flag false⟩]) ∧
      collab ((mqtt_yield exampleLib flakyEnv 1000 (startup World.init)).since w2) =
        polls ++
        [Event.plain Call.network_disconnect, Event.plain Call.mqtt_disconnect] ++
        (List.range' 0 2).flatMap
          (fun i => [connectAttempt exampleLib flakyEnv i, Event.plain (Call.wait 2)]) ++
        [connectAttempt exampleLib flakyEnv 2,
         ⟨Call.mqtt_connect, Ret.code 0⟩,
         ⟨Call.subscribe 2 (-2), Ret.code (-1)⟩,
         ⟨Call.subscribe 3 (-2), Ret.code (-1)⟩,
         ⟨Call.publishData 6 (-1) none none (Value.str (some "1.0.1")), Ret.code (-1)⟩,
         ⟨Call.publishData 5 (-1) none none (Value.str (some "mbedDevice")), Ret.code (-1)⟩] :=
  ⟨rfl, checkConnection_reconnects exampleLib flakyEnv ⟨5000, 5000⟩ 2 3 (startup World.init) _ rfl
    (by decide) (Or.inl rfl) (by decide) (by decide) (by decide)⟩

/-! ## The exit path of `main` -/

/-- Counterexample to claim C8 as stated: the broker refuses the protocol connect of the first
`connectClient` with code -1, so `main` takes its exit path; the protocol layer then reports not
connected and the transport connected.  `main` returns 0 having called `network.disconnect` but
never `mqttClient.disconnect`: its calls on the collaborators are the ones listed. -/
theorem main_exit_without_protocol_disconnect :
    main exampleLib refusingEnv 1 5 World.init =
      Run.done 0 (main exampleLib refusingEnv 1 5 World.init).world ∧
    outbound (main exampleLib refusingEnv 1 5 World.init).world.trace =
      [Call.spi_frequency 42000000, Call.mbed_mac_address, Call.interface_init,
       Call.setDefaultMessageHandler, Call.network_connect "mqtt.mydevices.com" 1883,
       Call.mqtt_connect, Call.mqtt_connected, Call.network_connected,
       Call.network_disconnect] ∧
    Call.mqtt_disconnect ∉ calls (main exampleLib refusingEnv 1 5 World.init).world.trace := by
  refine ⟨rfl, rfl, ?_⟩
  decide

/-- Claim C8, amended: whenever `main` reaches its exit path it returns 0 and its last calls are
a guarded teardown, protocol layer first: it polls `mqttClient.connected()` and calls
`mqttClient.disconnect` exactly when the poll reports connected, then polls
`network.connected()` and calls `network.disconnect` exactly when that poll reports connected.
A layer that reports not connected is not disconnected. -/
theorem main_exit_teardown (L : Lib) (env : Env) (N n : Nat) (w w3 : World) (r : Int)
    (h : main L env N n w = Run.done r w3) :
    r = 0 ∧ ∃ pre : List Event, w3.trace = pre ++ exitEvents env pre.length ∧
      (Event.plain Call.mqtt_disconnect ∈ exitEvents env pre.length ↔
        env.mqtt_up pre.length = true) ∧
      (Event.plain Call.network_disconnect ∈ exitEvents env pre.length ↔
        env.network_up (pre.length + 1 + if env.mqtt_up pre.length then 1 else 0) = true) := by
  have hmem : ∀ t, (Event.plain Call.mqtt_disconnect ∈ exitEvents env t ↔
        env.mqtt_up t = true) ∧
      (Event.plain Call.network_disconnect ∈ exitEvents env t ↔
        env.network_up (t + 1 + if env.mqtt_up t then 1 else 0) = true) := by
    intro t
    unfold exitEvents
    constructor <;> split_ifs <;> simp_all [Event.plain]
  unfold main at h
  cases hc : connectClient L env N (startup w) with
  | more v => rw [hc] at h; cases h
  | done rc v =>
    rw [hc] at h
    simp only at h
    split_ifs at h
    cases h
    exact ⟨rfl, _, by rw [exitPath_eq]; rfl, hmem _⟩

/-- Witness for C8 as amended: the run of the counterexample, where the protocol layer reports
not connected and only the transport is disconnected. -/
theorem main_exit_teardown_witness :
    (0 : Int) = 0 ∧ ∃ pre : List Event,
      (main exampleLib refusingEnv 1 5 World.init).world.trace =
        pre ++ exitEvents refusingEnv pre.length ∧
      (Event.plain Call.mqtt_disconnect ∈ exitEvents refusingEnv pre.length ↔
        refusingEnv.mqtt_up pre.length = true) ∧
      (Event.plain Call.network_disconnect ∈ exitEvents refusingEnv pre.length ↔
        refusingEnv.network_up
          (pre.length + 1 + if refusingEnv.mqtt_up pre.length then 1 else 0) = true) :=
  main_exit_teardown exampleLib refusingEnv 1 5 World.init
    (main exampleLib refusingEnv 1 5 World.init).world 0 rfl

/-! ## The timer check of a cycle -/

theorem checkTimer_idle (L : Lib) (env : Env) (t : MQTTTimer) (w : World)
    (h : t.expiredAt (env.now_ms w.trace.length) = false) :
    checkTimer L env t w = (t, w.emit [⟨Call.timer_expired, Ret.flag false⟩]) := by
  simp [checkTimer, timer_expired, h]

theorem checkTimer_fire (L : Lib) (env : Env) (t : MQTTTimer) (w : World)
    (h : t.expiredAt (env.now_ms w.trace.length) = true) :
    checkTimer L env t w =
      (MQTTTimer.arm (env.now_ms (w.trace ++ ([(⟨Call.timer_expired, Ret.flag true⟩ : Event)] ++
          telemetryEvents L env w.nPublishData)).length) 5000,
       { w with
         trace := w.trace ++ ([⟨Call.timer_expired, Ret.flag true⟩] ++
           telemetryEvents L env w.nPublishData ++
           [Event.plain (Call.timer_countdown_ms 5000)])
         nPublishData := w.nPublishData + 1 + 1 + 1 }) := by
  by_cases h1 : env.publishData w.nPublishData = L.CAYENNE_SUCCESS <;>
  by_cases h2 : env.publishData (w.nPublishData + 1) = L.CAYENNE_SUCCESS <;>
  by_cases h3 : env.publishData (w.nPublishData + 1 + 1) = L.CAYENNE_SUCCESS <;>
  simp [checkTimer, timer_expired, h, publishData, World.emit, timer_countdown_ms,
    telemetryEvents, failNote, h1, h2, h3]

theorem collab_telemetryEvents (L : Lib) (env : Env) (p : Nat) :
    collab (telemetryEvents L env p) =
      [⟨Call.publishData L.DATA_TOPIC 0 (some L.TEMPERATURE) (some L.CELSIUS)
          (Value.double 305 (-1)), Ret.code (env.publishData p)⟩,
       ⟨Call.publishData L.DATA_TOPIC 1 (some L.LUMINOSITY) (some L.LUX) (Value.int 1000),
          Ret.code (env.publishData (p + 1))⟩,
       ⟨Call.publishData L.DATA_TOPIC 2 (some L.BAROMETRIC_PRESSURE) (some L.HECTOPASCAL)
          (Value.int 800), Ret.code (env.publishData (p + 1 + 1))⟩] := by
  simp only [telemetryEvents, collab_append, collab_failNote, List.append_nil]
  rfl

theorem run_append (L : Lib) (s : Session) (a b : List Event) :
    Session.run L s (a ++ b) = (Session.run L s a).bind (fun s2 => Session.run L s2 b) := by
  induction a generalizing s with
  | nil => rfl
  | cons e a ih =>
    simp only [List.cons_append, Session.run]
    cases Session.step L s e with
    | none => rfl
    | some s2 => exact ih s2

theorem yields_append (a b : List Event) : yields (a ++ b) = yields a + yields b := by
  simp [yields]

theorem yields_printfs (evs : List Event) (h : ∀ e ∈ evs, e.call.isPrintf = true) :
    yields evs = 0 := by
  simp only [yields, List.countP_eq_zero]
  intro e he
  have := h e he
  obtain ⟨c, r⟩ := e
  cases c <;> simp [Call.isPrintf] at this
  simp [Call.isYield]

theorem run_printfs (L : Lib) (s : Session) (evs : List Event)
    (h : ∀ e ∈ evs, e.call.isPrintf = true) : Session.run L s evs = some s := by
  induction evs with
  | nil => rfl
  | cons e evs ih =>
    have he := h e (List.mem_cons_self _ _)
    have hs : Session.step L s e = some s := by
      obtain ⟨c, r⟩ := e
      cases c <;> simp [Call.isPrintf] at he
      simp [Session.step]
    simp only [Session.run, hs]
    exact ih (fun e he => h e (List.mem_cons_of_mem _ he))

theorem isPrintf_of_outbound_nil (evs : List Event) (h : outbound evs = []) :
    ∀ e ∈ evs, e.call.isPrintf = true := by
  intro e he
  simp only [outbound, calls, List.filter_eq_nil_iff, List.mem_map] at h
  simpa using h e.call ⟨e, he, rfl⟩

theorem Admits.stay (L : Lib) (s : Session) (w : World) : Admits L s w w s 0 :=
  ⟨[], by simp, rfl, rfl⟩

theorem Admits.andThen {L : Lib} {s s2 s3 : Session} {w w2 w3 : World} {c d : Nat}
    (h1 : Admits L s w w2 s2 c) (h2 : Admits L s2 w2 w3 s3 d) : Admits L s w w3 s3 (c + d) := by
  obtain ⟨a, ha, ra, ca⟩ := h1
  obtain ⟨b, hb, rb, cb⟩ := h2
  exact ⟨a ++ b, by rw [hb, ha, List.append_assoc], by rw [run_append, ra]; exact rb,
    by rw [yields_append, ca, cb]⟩

theorem Admits.seq {L : Lib} {s s2 s3 : Session} {w w2 w3 : World}
    (h1 : Admits L s w w2 s2 0) (h2 : Admits L s2 w2 w3 s3 0) : Admits L s w w3 s3 0 :=
  h1.andThen h2

theorem Admits.after {L : Lib} {s s2 s3 : Session} {w w2 w3 : World}
    (h1 : Admits L s w w2 s2 1) (h2 : Admits L s2 w2 w3 s3 0) : Admits L s w w3 s3 1 :=
  h1.andThen h2

theorem admits_printfs (L : Lib) (s : Session) (w : World) (evs : List Event)
    (h : ∀ e ∈ evs, e.call.isPrintf = true) : Admits L s w (w.emit evs) s 0 :=
  ⟨evs, rfl, run_printfs L s evs h, yields_printfs evs h⟩

theorem admits_printf (L : Lib) (s : Session) (w : World) (f : String) (a : List Arg) :
    Admits L s w (w.emit [printf f a]) s 0 :=
  admits_printfs L s w _ (by simp [printf, Event.plain, Call.isPrintf])

theorem admits_note (L : Lib) (s : Session) (w : World) (c : Prop) [Decidable c] (f : String)
    (a : List Arg) : Admits L s w (if c then w.emit [printf f a] else w) s 0 := by
  split_ifs
  · exact admits_printf L s w f a
  · exact Admits.stay L s w

theorem admits_messageArrived (L : Lib) (env : Env) (m : MessageData) (w : World) :
    Admits L Session.yielded w (messageArrived L env m w) Session.yielded 0 := by
  have ho := admits_printfs L Session.yielded w (outputMessage L m)
    (fun e he => isPrintf_of_mem_outputMessage he)
  by_cases h : m.topic = L.COMMAND_TOPIC
  · have h1 : Admits L Session.yielded (w.emit (outputMessage L m))
        (publishResponse env m.channel m.id none m.clientID (w.emit (outputMessage L m))).2
        Session.yielded 0 := ⟨_, rfl, rfl, rfl⟩
    have h2 : ∀ v : World, Admits L Session.yielded v
        (publishData env L.DATA_TOPIC m.channel none none (Value.str (m.getValue 0)) v).2
        Session.yielded 0 := fun v => ⟨_, rfl, rfl, rfl⟩
    unfold messageArrived
    simp only [h, ↓reduceIte]
    refine Admits.seq ?_ (admits_note L _ _ _ _ _)
    refine Admits.seq ?_ (h2 _)
    refine Admits.seq ?_ (admits_note L _ _ _ _ _)
    exact ho.seq h1
  · rw [messageArrived_other_topic_eq L env m w h]
    exact ho

theorem admits_foldl_messageArrived (L : Lib) (env : Env) (msgs : List MessageData) (w : World) :
    Admits L Session.yielded w
      (msgs.foldl (fun w m => messageArrived L env m w) w) Session.yielded 0 := by
  induction msgs generalizing w with
  | nil => exact Admits.stay L _ w
  | cons m msgs ih => exact (admits_messageArrived L env m w).seq (ih _)

theorem admits_mqtt_yield (L : Lib) (env : Env) (ms : Int) (w : World) :
    Admits L Session.boundary w (mqtt_yield L env ms w) Session.yielded 1 := by
  have h1 : Admits L Session.boundary w
      { w with trace := w.trace ++ [Event.plain (Call.mqtt_yield ms)], nYield := w.nYield + 1 }
      Session.yielded 1 := ⟨_, rfl, rfl, rfl⟩
  unfold mqtt_yield
  simp only
  split_ifs
  · exact h1.after (admits_foldl_messageArrived L env _ _)
  · exact h1

theorem admits_connectLoop (L : Lib) (env : Env) (fuel : Nat) (w : World) :
    Admits L Session.reconnecting w (connectLoop L env fuel w).world Session.reconnecting 0 := by
  induction fuel generalizing w with
  | zero => exact Admits.stay L _ w
  | succ fuel ih =>
    have h1 : Admits L Session.reconnecting w (network_connect L env w).2
        Session.reconnecting 0 := ⟨_, rfl, rfl, rfl⟩
    rw [connectLoop]
    split_ifs
    · have h2 := admits_printf L Session.reconnecting (network_connect L env w).2
        "TCP connect failed, error: %d\n" [Arg.int (network_connect L env w).1]
      have h3 : Admits L Session.reconnecting ((network_connect L env w).2.emit
          [printf "TCP connect failed, error: %d\n" [Arg.int (network_connect L env w).1]])
          (wait 2 ((network_connect L env w).2.emit
          [printf "TCP connect failed, error: %d\n" [Arg.int (network_connect L env w).1]]))
          Session.reconnecting 0 := ⟨_, rfl, rfl, rfl⟩
      exact ((h1.seq h2).seq h3).seq (ih _)
    · exact h1

theorem admits_connectClient (L : Lib) (env : Env) (N : Nat) (w : World)
    (hL : L.MQTT_SUCCESS = L.CAYENNE_SUCCESS) :
    match connectClient L env N w with
    | Run.done rc w2 => Admits L Session.reconnecting w w2
        (if rc = L.CAYENNE_SUCCESS then Session.reconnected else Session.reconnecting) 0
    | Run.more w2 => Admits L Session.reconnecting w w2 Session.reconnecting 0 := by
  have h0 := admits_printf L Session.reconnecting w
    "Connecting to %s:%d\n" [Arg.str L.CAYENNE_DOMAIN, Arg.int L.CAYENNE_PORT]
  have hl := admits_connectLoop L env N (w.emit
    [printf "Connecting to %s:%d\n" [Arg.str L.CAYENNE_DOMAIN, Arg.int L.CAYENNE_PORT]])
  have hp : ∀ (a b : Int) (c d : Option String) (x : Value) (v : World),
      Admits L Session.reconnected v (publishData env a b c d x v).2 Session.reconnected 0 :=
    fun _ _ _ _ _ _ => ⟨_, rfl, rfl, rfl⟩
  have hs : ∀ (a b : Int) (v : World),
      Admits L Session.reconnected v (subscribe env a b v).2 Session.reconnected 0 :=
    fun _ _ _ => ⟨_, rfl, rfl, rfl⟩
  unfold connectClient
  simp only
  cases hcl : connectLoop L env N (w.emit
    [printf "Connecting to %s:%d\n" [Arg.str L.CAYENNE_DOMAIN, Arg.int L.CAYENNE_PORT]]) with
  | more v =>
    rw [hcl] at hl
    exact h0.seq hl
  | done r v =>
    rw [hcl] at hl
    have hv : Admits L Session.reconnecting w v Session.reconnecting 0 := h0.seq hl
    simp only
    by_cases hm : (mqtt_connect env v).1 = L.MQTT_SUCCESS
    · have h1 : Admits L Session.reconnecting v (mqtt_connect env v).2 Session.reconnected 0 :=
        ⟨_, rfl, by
          have : env.mqtt_connect v.nMqttConnect = L.MQTT_SUCCESS := hm
          simp [Session.run, Session.step, this], rfl⟩
      simp only [hm, ne_eq, not_true_eq_false, ↓reduceIte]
      refine (hv.seq h1).seq ?_
      refine Admits.seq ?_ (hp _ _ _ _ _ _)
      refine Admits.seq ?_ (hp _ _ _ _ _ _)
      refine Admits.seq ?_ (admits_note L _ _ _ _ _)
      refine Admits.seq ?_ (hs _ _ _)
      refine Admits.seq ?_ (admits_note L _ _ _ _ _)
      refine Admits.seq ?_ (hs _ _ _)
      exact admits_printf L _ _ "Connected\n" []
    · have h1 : Admits L Session.reconnecting v (mqtt_connect env v).2 Session.reconnecting 0 :=
        ⟨_, rfl, by
          have : env.mqtt_connect v.nMqttConnect ≠ L.MQTT_SUCCESS := hm
          simp [Session.run, Session.step, this], rfl⟩
      have hc : ¬ (mqtt_connect env v).1 = L.CAYENNE_SUCCESS := by rw [← hL]; exact hm
      simp only [hm, ne_eq, not_false_eq_true, ↓reduceIte, hc]
      exact (hv.seq h1).seq (admits_printf L _ _ _ _)

theorem admits_reconnectLoop (L : Lib) (env : Env) (N fuel : Nat) (w : World)
    (hL : L.MQTT_SUCCESS = L.CAYENNE_SUCCESS) :
    match reconnectLoop L env N fuel w with
    | Run.done _ w2 => Admits L Session.reconnecting w w2 Session.reconnected 0
    | Run.more w2 => Admits L Session.reconnecting w w2 Session.reconnecting 0 := by
  induction fuel generalizing w with
  | zero => exact Admits.stay L _ w
  | succ fuel ih =>
    have hc := admits_connectClient L env N w hL
    rw [reconnectLoop]
    cases hcc : connectClient L env N w with
    | more v =>
      rw [hcc] at hc
      exact hc
    | done rc v =>
      rw [hcc] at hc
      simp only at hc ⊢
      by_cases hr : rc = L.CAYENNE_SUCCESS
      · simp only [hr, ↓reduceIte, ne_eq, not_true_eq_false] at hc ⊢
        exact hc
      · simp only [hr, ↓reduceIte, ne_eq, not_false_eq_true] at hc ⊢
        have h2 : Admits L Session.reconnecting v (wait 2 v) Session.reconnecting 0 :=
          ⟨_, rfl, rfl, rfl⟩
        have h3 := admits_printf L Session.reconnecting (wait 2 v)
          "Reconnect failed, retrying\n" []
        have h4 := ih ((wait 2 v).emit [printf "Reconnect failed, retrying\n" []])
        cases hrl : reconnectLoop L env N fuel
            ((wait 2 v).emit [printf "Reconnect failed, retrying\n" []]) with
        | more u =>
          rw [hrl] at h4
          exact ((hc.seq h2).seq h3).seq h4
        | done x u =>
          rw [hrl] at h4
          exact ((hc.seq h2).seq h3).seq h4

theorem admits_reconnect (L : Lib) (env : Env) (N : Nat) (w : World)
    (hL : L.MQTT_SUCCESS = L.CAYENNE_SUCCESS) :
    match reconnect L env N w with
    | Run.done _ w2 => Admits L Session.detected w w2 Session.reconnected 0
    | Run.more w2 => Admits L Session.detected w w2 Session.reconnecting 0 := by
  have ha : Admits L Session.detected w (network_disconnect w) Session.transportClosed 0 :=
    ⟨_, rfl, rfl, rfl⟩
  have hb : Admits L Session.transportClosed (network_disconnect w)
      (mqtt_disconnect (network_disconnect w)) Session.reconnecting 0 := ⟨_, rfl, rfl, rfl⟩
  have h1 := (ha.seq hb).seq (admits_printf L Session.reconnecting
    (mqtt_disconnect (network_disconnect w)) "Reconnecting\n" [])
  have h2 := admits_reconnectLoop L env N N
    ((mqtt_disconnect (network_disconnect w)).emit [printf "Reconnecting\n" []]) hL
  unfold reconnect
  simp only
  cases hrl : reconnectLoop L env N N
      ((mqtt_disconnect (network_disconnect w)).emit [printf "Reconnecting\n" []]) with
  | more u =>
    rw [hrl] at h2
    exact h1.seq h2
  | done x u =>
    rw [hrl] at h2
    exact h1.seq h2

theorem admits_checkConnection (L : Lib) (env : Env) (N : Nat) (w : World)
    (hL : L.MQTT_SUCCESS = L.CAYENNE_SUCCESS) :
    match checkConnection L env N w with
    | Run.done _ w2 => ∃ s, Admits L Session.yielded w w2 s 0 ∧
        (s = Session.live ∨ s = Session.reconnected)
    | Run.more w2 => Admits L Session.yielded w w2 Session.reconnecting 0 := by
  unfold checkConnection
  simp only
  by_cases hb : (network_connected env w).1 = true
  · have h1 : Admits L Session.yielded w (network_connected env w).2 Session.transportUp 0 :=
      ⟨_, rfl, by
        have : env.network_up w.trace.length = true := hb
        simp [Session.run, Session.step, this], rfl⟩
    simp only [hb, Bool.not_true, Bool.false_eq_true, ↓reduceIte]
    by_cases hm : (mqtt_connected env (network_connected env w).2).1 = true
    · have h2 : Admits L Session.transportUp (network_connected env w).2
          (mqtt_connected env (network_connected env w).2).2 Session.live 0 :=
        ⟨_, rfl, by
          have : env.mqtt_up (network_connected env w).2.trace.length = true := hm
          simp [Session.run, Session.step, this], rfl⟩
      simp only [hm, Bool.not_true, Bool.false_eq_true, ↓reduceIte]
      exact ⟨_, h1.seq h2, Or.inl rfl⟩
    · have hm2 : (mqtt_connected env (network_connected env w).2).1 = false := by simpa using hm
      have h2 : Admits L Session.transportUp (network_connected env w).2
          (mqtt_connected env (network_connected env w).2).2 Session.detected 0 :=
        ⟨_, rfl, by
          have : env.mqtt_up (network_connected env w).2.trace.length = false := hm2
          simp [Session.run, Session.step, this], rfl⟩
      have h3 := admits_reconnect L env N (mqtt_connected env (network_connected env w).2).2 hL
      simp only [hm2, Bool.not_false, ↓reduceIte]
      cases hr : reconnect L env N (mqtt_connected env (network_connected env w).2).2 with
      | more u =>
        rw [hr] at h3
        exact (h1.seq h2).seq h3
      | done x u =>
        rw [hr] at h3
        exact ⟨_, (h1.seq h2).seq h3, Or.inr rfl⟩
  · have hb2 : (network_connected env w).1 = false := by simpa using hb
    have h1 : Admits L Session.yielded w (network_connected env w).2 Session.detected 0 :=
      ⟨_, rfl, by
        have : env.network_up w.trace.length = false := hb2
        simp [Session.run, Session.step, this], rfl⟩
    have h3 := admits_reconnect L env N (network_connected env w).2 hL
    simp only [hb2, Bool.not_false, ↓reduceIte]
    cases hr : reconnect L env N (network_connected env w).2 with
    | more u =>
      rw [hr] at h3
      exact h1.seq h3
    | done x u =>
      rw [hr] at h3
      exact ⟨_, h1.seq h3, Or.inr rfl⟩

theorem admits_checkTimer (L : Lib) (env : Env) (t : MQTTTimer) (w : World) (s : Session)
    (hs : s = Session.live ∨ s = Session.reconnected) :
    Admits L s w (checkTimer L env t w).2 Session.boundary 0 := by
  have hp : ∀ (a b : Int) (c d : Option String) (x : Value) (v : World),
      Admits L Session.firing v (publishData env a b c d x v).2 Session.firing 0 :=
    fun _ _ _ _ _ _ => ⟨_, rfl, rfl, rfl⟩
  have hc : ∀ v : World, Admits L Session.firing v (timer_countdown_ms env 5000 v).2
      Session.boundary 0 := fun v => ⟨_, rfl, rfl, rfl⟩
  unfold checkTimer
  simp only
  by_cases hx : (timer_expired env t w).1 = true
  · have h1 : Admits L s w (timer_expired env t w).2 Session.firing 0 :=
      ⟨_, rfl, by
        have : t.expiredAt (env.now_ms w.trace.length) = true := hx
        rcases hs with rfl | rfl <;> simp [Session.run, Session.step, this], rfl⟩
    rw [if_pos hx]
    refine h1.seq ?_
    refine Admits.seq ?_ (hc _)
    refine Admits.seq ?_ (admits_note L _ _ _ _ _)
    refine Admits.seq ?_ (hp _ _ _ _ _ _)
    refine Admits.seq ?_ (admits_note L _ _ _ _ _)
    refine Admits.seq ?_ (hp _ _ _ _ _ _)
    refine Admits.seq ?_ (admits_note L _ _ _ _ _)
    exact hp _ _ _ _ _ _
  · have hx2 : (timer_expired env t w).1 = false := by simpa using hx
    have h1 : Admits L s w (timer_expired env t w).2 Session.boundary 0 :=
      ⟨_, rfl, by
        have : t.expiredAt (env.now_ms w.trace.length) = false := hx2
        rcases hs with rfl | rfl <;> simp [Session.run, Session.step, this], rfl⟩
    rw [if_neg hx]
    exact h1

theorem admits_loopBody (L : Lib) (env : Env) (N : Nat) (t : MQTTTimer) (w : World)
    (hL : L.MQTT_SUCCESS = L.CAYENNE_SUCCESS) :
    match loopBody L env N t w with
    | Run.done _ w2 => Admits L Session.boundary w w2 Session.boundary 1
    | Run.more w2 => Admits L Session.boundary w w2 Session.reconnecting 1 := by
  have h1 := admits_mqtt_yield L env 1000 w
  have h2 := admits_checkConnection L env N (mqtt_yield L env 1000 w) hL
  unfold loopBody
  simp only
  cases hc : checkConnection L env N (mqtt_yield L env 1000 w) with
  | more u =>
    rw [hc] at h2
    exact h1.after h2
  | done x u =>
    rw [hc] at h2
    obtain ⟨s, hs, hs2⟩ := h2
    exact (h1.after hs).after (admits_checkTimer L env t u s hs2)

theorem admits_loopIter (L : Lib) (env : Env) (N n : Nat) (t : MQTTTimer) (w : World)
    (hL : L.MQTT_SUCCESS = L.CAYENNE_SUCCESS) :
    ∃ s c, Admits L Session.boundary w (loopIter L env N n t w) s c ∧
      ((s = Session.boundary ∧ c = n) ∨ (s = Session.reconnecting ∧ 0 < c ∧ c ≤ n)) := by
  induction n generalizing t w with
  | zero => exact ⟨_, _, Admits.stay L _ w, Or.inl ⟨rfl, rfl⟩⟩
  | succ n ih =>
    have hb := admits_loopBody L env N t w hL
    rw [loopIter]
    cases hc : loopBody L env N t w with
    | more u =>
      rw [hc] at hb
      exact ⟨_, _, hb, Or.inr ⟨rfl, by omega, by omega⟩⟩
    | done t2 u =>
      rw [hc] at hb
      obtain ⟨s, c, hs, hs2⟩ := ih t2 u
      refine ⟨s, 1 + c, hb.andThen hs, ?_⟩
      rcases hs2 with ⟨h1, h2⟩ | ⟨h1, h2, h3⟩
      · exact Or.inl ⟨h1, by omega⟩
      · exact Or.inr ⟨h1, by omega, by omega⟩

/-- Counterexample to claim C4 as stated.  `main` connects at once and enters `loop`; the first
yield (event 14 of the run) delivers a Command message, and from logical time 15 on both layers
are down.  The handler still issues its Response publish (event 20) and its Data publish (event
22), both while the transport and the protocol layer are not connected, and only afterwards does
the cycle poll `network.connected()` (event 24) and tear down and reconnect: the yield and the
two publishes of that cycle precede the teardown. -/
theorem loop_publishes_before_teardown :
    outbound ((main exampleLib dropEnv 1 1 World.init).world.trace.drop 14) =
      [Call.mqtt_yield 1000,
       Call.publishResponse 3 (some "42") none none,
       Call.publishData 1 3 none none (Value.str (some "1")),
       Call.network_connected, Call.network_disconnect, Call.mqtt_disconnect,
       Call.network_connect "mqtt.mydevices.com" 1883, Call.mqtt_connect,
       Call.subscribe 2 (-2), Call.subscribe 3 (-2),
       Call.publishData 6 (-1) none none (Value.str (some "1.0.1")),
       Call.publishData 5 (-1) none none (Value.str (some "mbedDevice")),
       Call.timer_expired] ∧
    (main exampleLib dropEnv 1 1 World.init).world.trace.get? 20 =
      some ⟨Call.publishResponse 3 (some "42") none none, Ret.code (-1)⟩ ∧
    (dropEnv.network_up 20 = false ∧ dropEnv.mqtt_up 20 = false) ∧
    (main exampleLib dropEnv 1 1 World.init).world.trace.get? 22 =
      some ⟨Call.publishData 1 3 none none (Value.str (some "1")), Ret.code (-1)⟩ ∧
    (dropEnv.network_up 22 = false ∧ dropEnv.mqtt_up 22 = false) ∧
    (main exampleLib dropEnv 1 1 World.init).world.trace.get? 24 =
      some ⟨Call.network_connected, Ret.flag false⟩ ∧
    (main exampleLib dropEnv 1 1 World.init).world.trace.get? 25 =
      some (Event.plain Call.network_disconnect) := by
  refine ⟨rfl, rfl, ⟨rfl, rfl⟩, rfl, ⟨rfl, rfl⟩, rfl, rfl⟩


/-- Claim C4, amended.  `loop` declares its timer and then runs cycles that the session admits
from `boundary`, under any environment and for any number `n` of cycles.  So each cycle makes
its yield first and polls liveness once, right after the yield: the transport, then the
protocol layer only if the transport reports connected.  A poll that reports not connected is
followed at once by `network.disconnect`, `mqttClient.disconnect` and the reconnect, during
which only `network.connect`, `wait` and `mqttClient.connect` are called: from the failed poll
until the protocol connect has succeeded again there is no yield, timer call, subscribe or
publish, and the timer check of the cycle comes after.  A publish is admitted only in a state
in which the session is Established.  After the run all `n` cycles are complete, or a reconnect
is still going on in one of them, its budget used up.  The two library constants naming
success, `MQTT::SUCCESS` and `CAYENNE_SUCCESS`, are taken equal.  The publishes of the handler
come before the poll of their cycle and are not guarded by it. -/
theorem loop_session_admitted (L : Lib) (env : Env) (N n : Nat) (w : World)
    (hL : L.MQTT_SUCCESS = L.CAYENNE_SUCCESS) :
    (∃ evs s, w.since (loop L env N n w) = Event.plain (Call.timer_new 5000) :: evs ∧
      Session.run L Session.boundary evs = some s ∧
      ((s = Session.boundary ∧ yields evs = n) ∨
       (s = Session.reconnecting ∧ 0 < yields evs ∧ yields evs ≤ n))) ∧
    (∀ (s s2 : Session) (e : Event), Session.step L s e = some s2 →
      (e.call.isPublishData = true ∨ e.call.isPublishResponse = true) →
      s.established = true) := by
  constructor
  · obtain ⟨s, c, ⟨evs, he, hr, hc⟩, hs⟩ := admits_loopIter L env N n (timer_new env 5000 w).1
      (timer_new env 5000 w).2 hL
    refine ⟨evs, s, ?_, hr, by rw [hc]; exact hs⟩
    rw [loop]
    exact since_append w _ _ (by
      rw [he]
      simp [timer_new, World.emit])
  · intro s s2 e h hp
    obtain ⟨c, r⟩ := e
    cases s <;> first | rfl | (exfalso; cases c <;> simp [Session.step, Call.isPublishData,
      Call.isPublishResponse] at h hp)

/-- Witness for C4 as amended: the run of the counterexample, from the world in which `main`
enters `loop`.  The session admits the whole cycle, the reconnect after the lost connection
included, and the cycle is complete. -/
theorem loop_session_admitted_witness :
    exampleLib.MQTT_SUCCESS = exampleLib.CAYENNE_SUCCESS ∧
    Session.run exampleLib Session.boundary
      (((connectClient exampleLib dropEnv 1 (startup World.init)).world.since
        (loop exampleLib dropEnv 1 1
          (connectClient exampleLib dropEnv 1 (startup World.init)).world)).drop 1)
      = some Session.boundary ∧
    (∃ evs s, (connectClient exampleLib dropEnv 1 (startup World.init)).world.since
        (loop exampleLib dropEnv 1 1
          (connectClient exampleLib dropEnv 1 (startup World.init)).world) =
        Event.plain (Call.timer_new 5000) :: evs ∧
      Session.run exampleLib Session.boundary evs = some s ∧
      ((s = Session.boundary ∧ yields evs = 1) ∨
       (s = Session.reconnecting ∧ 0 < yields evs ∧ yields evs ≤ 1))) :=
  ⟨rfl, rfl, (loop_session_admitted exampleLib dropEnv 1 1
    (connectClient exampleLib dropEnv 1 (startup World.init)).world rfl).1⟩

/-! ## The periodic timer over the cycles of the loop -/

theorem now_ms_le_add (env : Env) (i k : Nat) : env.now_ms i ≤ env.now_ms (i + k) := by
  induction k with
  | zero => exact le_refl _
  | succ k ih =>
    have h : env.now_ms (i + (k + 1)) = env.now_ms (i + k) + env.tick_ms (i + k) := rfl
    omega

theorem srun_append (L : Lib) (env : Env) (s : Schedule) (i : Nat) (a b : List Event) :
    Schedule.run L env s i (a ++ b) =
      (Schedule.run L env s i a).bind (fun s2 => Schedule.run L env s2 (i + a.length) b) := by
  induction a generalizing s i with
  | nil => rfl
  | cons e a ih =>
    simp only [List.cons_append, Schedule.run, List.length_cons]
    cases Schedule.step L env s i e with
    | none => rfl
    | some s2 =>
      have h := ih s2 (i + 1)
      rw [show i + 1 + a.length = i + (a.length + 1) by omega] at h
      exact h

theorem srun_quiet (L : Lib) (env : Env) (d i : Nat) (evs : List Event)
    (h : ∀ e ∈ evs, e.quiet = true) :
    Schedule.run L env ⟨d, TimerPhase.awaiting⟩ i evs = some ⟨d, TimerPhase.awaiting⟩ := by
  induction evs generalizing i with
  | nil => rfl
  | cons e evs ih =>
    have he := h e (List.mem_cons_self _ _)
    simp only [Schedule.run, Schedule.step, he, ↓reduceIte]
    exact ih (i + 1) (fun e he => h e (List.mem_cons_of_mem _ he))

theorem yields_quiet (evs : List Event) (h : ∀ e ∈ evs, e.quiet = true) : yields evs = 0 := by
  simp only [yields, List.countP_eq_zero]
  intro e he
  have := h e he
  obtain ⟨c, r⟩ := e
  cases c <;> simp [Event.quiet, Call.isLoopCall, Call.isYield] at this ⊢

theorem Quiet.still (w : World) : Quiet w w := ⟨[], by simp, by simp⟩

theorem Quiet.next {w w2 w3 : World} (h1 : Quiet w w2) (h2 : Quiet w2 w3) : Quiet w w3 := by
  obtain ⟨a, ha, qa⟩ := h1
  obtain ⟨b, hb, qb⟩ := h2
  refine ⟨a ++ b, by rw [hb, ha, List.append_assoc], ?_⟩
  intro e he
  rcases List.mem_append.mp he with h | h
  · exact qa e h
  · exact qb e h

theorem quiet_one (w w2 : World) (e : Event) (ht : w2.trace = w.trace ++ [e])
    (h : e.quiet = true) : Quiet w w2 :=
  ⟨[e], ht, by intro x hx; rw [List.mem_singleton.mp hx]; exact h⟩

theorem quiet_printfs (w : World) (evs : List Event) (h : ∀ e ∈ evs, e.call.isPrintf = true) :
    Quiet w (w.emit evs) := by
  refine ⟨evs, rfl, ?_⟩
  intro e he
  have := h e he
  obtain ⟨c, r⟩ := e
  cases c <;> simp [Call.isPrintf] at this
  rfl

theorem quiet_note (w : World) (c : Prop) [Decidable c] (f : String) (a : List Arg) :
    Quiet w (if c then w.emit [printf f a] else w) := by
  split_ifs
  · exact quiet_one w _ _ rfl rfl
  · exact Quiet.still w

theorem quiet_messageArrived (L : Lib) (env : Env) (m : MessageData) (w : World) :
    Quiet w (messageArrived L env m w) := by
  have ho := quiet_printfs w (outputMessage L m) (fun e he => isPrintf_of_mem_outputMessage he)
  by_cases h : m.topic = L.COMMAND_TOPIC
  · have h1 : Quiet (w.emit (outputMessage L m))
        (publishResponse env m.channel m.id none m.clientID (w.emit (outputMessage L m))).2 :=
      quiet_one _ _ _ rfl rfl
    have h2 : ∀ v : World, Quiet v
        (publishData env L.DATA_TOPIC m.channel none none (Value.str (m.getValue 0)) v).2 :=
      fun v => quiet_one _ _ _ rfl rfl
    unfold messageArrived
    simp only [h, ↓reduceIte]
    refine Quiet.next ?_ (quiet_note _ _ _ _)
    refine Quiet.next ?_ (h2 _)
    refine Quiet.next ?_ (quiet_note _ _ _ _)
    exact ho.next h1
  · rw [messageArrived_other_topic_eq L env m w h]
    exact ho

theorem quiet_foldl_messageArrived (L : Lib) (env : Env) (msgs : List MessageData) (w : World) :
    Quiet w (msgs.foldl (fun w m => messageArrived L env m w) w) := by
  induction msgs generalizing w with
  | nil => exact Quiet.still w
  | cons m msgs ih => exact (quiet_messageArrived L env m w).next (ih _)

theorem quiet_connectLoop (L : Lib) (env : Env) (fuel : Nat) (w : World) :
    Quiet w (connectLoop L env fuel w).world := by
  induction fuel generalizing w with
  | zero => exact Quiet.still w
  | succ fuel ih =>
    have h1 : Quiet w (network_connect L env w).2 := quiet_one _ _ _ rfl rfl
    rw [connectLoop]
    split_ifs
    · have h2 : Quiet (network_connect L env w).2 ((network_connect L env w).2.emit
          [printf "TCP connect failed, error: %d\n" [Arg.int (network_connect L env w).1]]) :=
        quiet_one _ _ _ rfl rfl
      have h3 : Quiet ((network_connect L env w).2.emit
          [printf "TCP connect failed, error: %d\n" [Arg.int (network_connect L env w).1]])
          (wait 2 ((network_connect L env w).2.emit
          [printf "TCP connect failed, error: %d\n" [Arg.int (network_connect L env w).1]])) :=
        quiet_one _ _ _ rfl rfl
      exact ((h1.next h2).next h3).next (ih _)
    · exact h1

theorem quiet_connectClient (L : Lib) (env : Env) (N : Nat) (w : World) :
    Quiet w (connectClient L env N w).world := by
  have h0 : Quiet w (w.emit
      [printf "Connecting to %s:%d\n" [Arg.str L.CAYENNE_DOMAIN, Arg.int L.CAYENNE_PORT]]) :=
    quiet_one _ _ _ rfl rfl
  have hl := quiet_connectLoop L env N (w.emit
    [printf "Connecting to %s:%d\n" [Arg.str L.CAYENNE_DOMAIN, Arg.int L.CAYENNE_PORT]])
  have hp : ∀ (a b : Int) (x : Value) (v : World),
      Quiet v (publishData env a b none none x v).2 := fun _ _ _ _ => quiet_one _ _ _ rfl rfl
  have hs : ∀ (a b : Int) (v : World), Quiet v (subscribe env a b v).2 :=
    fun _ _ _ => quiet_one _ _ _ rfl rfl
  unfold connectClient
  simp only
  cases hcl : connectLoop L env N (w.emit
    [printf "Connecting to %s:%d\n" [Arg.str L.CAYENNE_DOMAIN, Arg.int L.CAYENNE_PORT]]) with
  | more v =>
    rw [hcl] at hl
    exact h0.next hl
  | done r v =>
    rw [hcl] at hl
    have hv : Quiet w v := h0.next hl
    have h1 : Quiet v (mqtt_connect env v).2 := quiet_one _ _ _ rfl rfl
    simp only
    by_cases hm : (mqtt_connect env v).1 = L.MQTT_SUCCESS
    · simp only [hm, ne_eq, not_true_eq_false, ↓reduceIte, Run.world]
      refine (hv.next h1).next ?_
      refine Quiet.next ?_ (hp _ _ _ _)
      refine Quiet.next ?_ (hp _ _ _ _)
      refine Quiet.next ?_ (quiet_note _ _ _ _)
      refine Quiet.next ?_ (hs _ _ _)
      refine Quiet.next ?_ (quiet_note _ _ _ _)
      refine Quiet.next ?_ (hs _ _ _)
      exact quiet_one _ _ _ rfl rfl
    · simp only [hm, ne_eq, not_false_eq_true, ↓reduceIte, Run.world]
      exact (hv.next h1).next (quiet_one _ _ _ rfl rfl)

theorem quiet_reconnectLoop (L : Lib) (env : Env) (N fuel : Nat) (w : World) :
    Quiet w (reconnectLoop L env N fuel w).world := by
  induction fuel generalizing w with
  | zero => exact Quiet.still w
  | succ fuel ih =>
    have hc := quiet_connectClient L env N w
    rw [reconnectLoop]
    cases hcc : connectClient L env N w with
    | more v =>
      rw [hcc] at hc
      exact hc
    | done rc v =>
      rw [hcc] at hc
      simp only
      split_ifs
      · have h2 : Quiet v (wait 2 v) := quiet_one _ _ _ rfl rfl
        have h3 : Quiet (wait 2 v) ((wait 2 v).emit [printf "Reconnect failed, retrying\n" []]) :=
          quiet_one _ _ _ rfl rfl
        exact ((hc.next h2).next h3).next (ih _)
      · exact hc

theorem quiet_reconnect (L : Lib) (env : Env) (N : Nat) (w : World) :
    Quiet w (reconnect L env N w).world := by
  have ha : Quiet w (network_disconnect w) := quiet_one _ _ _ rfl rfl
  have hb : Quiet (network_disconnect w) (mqtt_disconnect (network_disconnect w)) :=
    quiet_one _ _ _ rfl rfl
  have hc : Quiet (mqtt_disconnect (network_disconnect w))
      ((mqtt_disconnect (network_disconnect w)).emit [printf "Reconnecting\n" []]) :=
    quiet_one _ _ _ rfl rfl
  exact ((ha.next hb).next hc).next (quiet_reconnectLoop L env N N _)

theorem quiet_checkConnection (L : Lib) (env : Env) (N : Nat) (w : World) :
    Quiet w (checkConnection L env N w).world := by
  have h1 : Quiet w (network_connected env w).2 := quiet_one _ _ _ rfl rfl
  have h2 : Quiet (network_connected env w).2
      (mqtt_connected env (network_connected env w).2).2 := quiet_one _ _ _ rfl rfl
  unfold checkConnection
  simp only
  split_ifs
  · exact h1.next (quiet_reconnect L env N _)
  · exact (h1.next h2).next (quiet_reconnect L env N _)
  · exact h1.next h2

theorem Keeps.chain {L : Lib} {env : Env} {s s2 s3 : Schedule} {w w2 w3 : World} {c d : Nat}
    (h1 : Keeps L env s w w2 s2 c) (h2 : Keeps L env s2 w2 w3 s3 d) :
    Keeps L env s w w3 s3 (c + d) := by
  obtain ⟨a, ha, ra, ca⟩ := h1
  obtain ⟨b, hb, rb, cb⟩ := h2
  refine ⟨a ++ b, by rw [hb, ha, List.append_assoc], ?_, by rw [yields_append, ca, cb]⟩
  rw [srun_append, ra]
  rw [ha, List.length_append] at rb
  exact rb

theorem Keeps.chain0 {L : Lib} {env : Env} {s s2 s3 : Schedule} {w w2 w3 : World}
    (h1 : Keeps L env s w w2 s2 0) (h2 : Keeps L env s2 w2 w3 s3 0) :
    Keeps L env s w w3 s3 0 :=
  h1.chain h2

theorem Keeps.chain1 {L : Lib} {env : Env} {s s2 s3 : Schedule} {w w2 w3 : World}
    (h1 : Keeps L env s w w2 s2 1) (h2 : Keeps L env s2 w2 w3 s3 0) :
    Keeps L env s w w3 s3 1 :=
  h1.chain h2

theorem keeps_of_quiet (L : Lib) (env : Env) (d : Nat) {w w2 : World} (h : Quiet w w2) :
    Keeps L env ⟨d, TimerPhase.awaiting⟩ w w2 ⟨d, TimerPhase.awaiting⟩ 0 := by
  obtain ⟨evs, he, hq⟩ := h
  exact ⟨evs, he, srun_quiet L env d _ evs hq, yields_quiet evs hq⟩

theorem keeps_mqtt_yield (L : Lib) (env : Env) (d : Nat) (ms : Int) (w : World) :
    Keeps L env ⟨d, TimerPhase.idle⟩ w (mqtt_yield L env ms w) ⟨d, TimerPhase.awaiting⟩ 1 := by
  have h1 : Keeps L env ⟨d, TimerPhase.idle⟩ w
      { w with trace := w.trace ++ [Event.plain (Call.mqtt_yield ms)], nYield := w.nYield + 1 }
      ⟨d, TimerPhase.awaiting⟩ 1 := ⟨_, rfl, rfl, rfl⟩
  unfold mqtt_yield
  simp only
  split_ifs
  · exact h1.chain1 (keeps_of_quiet L env d (quiet_foldl_messageArrived L env _ _))
  · exact h1

theorem srun_failNote (L : Lib) (env : Env) (d k i : Nat) (fmt : String) (rc : Int) :
    Schedule.run L env ⟨d, TimerPhase.firing k⟩ i (failNote L fmt rc) =
      some ⟨d, TimerPhase.firing k⟩ := by
  unfold failNote
  split_ifs <;> rfl

theorem srun_telemetryEvents (L : Lib) (env : Env) (d i p : Nat) :
    Schedule.run L env ⟨d, TimerPhase.firing 0⟩ i (telemetryEvents L env p) =
      some ⟨d, TimerPhase.firing 3⟩ := by
  simp [telemetryEvents, srun_append, srun_failNote, Schedule.run, Schedule.step, scheduled,
    Call.isPrintf]

theorem srun_singleton (L : Lib) (env : Env) (s : Schedule) (i : Nat) (e : Event) :
    Schedule.run L env s i [e] = Schedule.step L env s i e := by
  simp only [Schedule.run]
  cases Schedule.step L env s i e <;> rfl

theorem yields_failNote (L : Lib) (fmt : String) (rc : Int) : yields (failNote L fmt rc) = 0 := by
  unfold failNote
  split_ifs <;> rfl

theorem yields_telemetryEvents (L : Lib) (env : Env) (p : Nat) :
    yields (telemetryEvents L env p) = 0 := by
  simp only [telemetryEvents, yields_append, yields_failNote]
  rfl

theorem step_poll (L : Lib) (env : Env) (d i : Nat) :
    Schedule.step L env ⟨d, TimerPhase.awaiting⟩ i
      ⟨Call.timer_expired, Ret.flag (decide (d ≤ env.now_ms i))⟩ =
      some ⟨d, if d ≤ env.now_ms i then TimerPhase.firing 0 else TimerPhase.idle⟩ := by
  simp [Schedule.step, Event.quiet, Call.isLoopCall, Call.isTelemetry]

theorem step_countdown (L : Lib) (env : Env) (d j : Nat) (hj : d ≤ env.now_ms j) :
    Schedule.step L env ⟨d, TimerPhase.firing 3⟩ j (Event.plain (Call.timer_countdown_ms 5000)) =
      some ⟨env.now_ms j + 5000, TimerPhase.idle⟩ := by
  simp [Schedule.step, Event.plain, Call.isPrintf, hj]

theorem keeps_checkTimer (L : Lib) (env : Env) (t : MQTTTimer) (w : World) :
    Keeps L env ⟨t.deadline, TimerPhase.awaiting⟩ w (checkTimer L env t w).2
      ⟨(checkTimer L env t w).1.deadline, TimerPhase.idle⟩ 0 := by
  have hp := step_poll L env t.deadline w.trace.length
  by_cases hx : t.deadline ≤ env.now_ms w.trace.length
  · have hf := checkTimer_fire L env t w (by simp [MQTTTimer.expiredAt, hx])
    have hT := srun_telemetryEvents L env t.deadline (w.trace.length + 1) w.nPublishData
    have hy := yields_telemetryEvents L env w.nPublishData
    rw [hf]
    generalize telemetryEvents L env w.nPublishData = T at hT hy ⊢
    have hj : t.deadline ≤ env.now_ms (w.trace.length + 1 + T.length) := by
      rw [Nat.add_assoc]
      exact le_trans hx (now_ms_le_add env _ _)
    have hlen : (w.trace ++ ([(⟨Call.timer_expired, Ret.flag true⟩ : Event)] ++ T)).length =
        w.trace.length + 1 + T.length := by
      simp only [List.length_append, List.length_singleton]
      omega
    simp only [hx, decide_True, ↓reduceIte] at hp
    refine ⟨_, rfl, ?_, ?_⟩
    · rw [List.append_assoc, srun_append, srun_singleton, hp, Option.some_bind,
        List.length_singleton, srun_append, hT, Option.some_bind, srun_singleton,
        step_countdown L env _ _ hj, hlen]
      rfl
    · rw [yields_append, yields_append, hy]
      rfl
  · have hi := checkTimer_idle L env t w (by simp [MQTTTimer.expiredAt, hx])
    simp only [hx, decide_False, ↓reduceIte] at hp
    rw [hi]
    exact ⟨_, rfl, by rw [srun_singleton, hp], rfl⟩

theorem keeps_loopBody (L : Lib) (env : Env) (N : Nat) (t : MQTTTimer) (w : World) :
    match loopBody L env N t w with
    | Run.done t2 w2 => Keeps L env ⟨t.deadline, TimerPhase.idle⟩ w w2
        ⟨t2.deadline, TimerPhase.idle⟩ 1
    | Run.more w2 => Keeps L env ⟨t.deadline, TimerPhase.idle⟩ w w2
        ⟨t.deadline, TimerPhase.awaiting⟩ 1 := by
  have h1 := keeps_mqtt_yield L env t.deadline 1000 w
  have h2 := keeps_of_quiet L env t.deadline
    (quiet_checkConnection L env N (mqtt_yield L env 1000 w))
  unfold loopBody
  simp only
  cases hc : checkConnection L env N (mqtt_yield L env 1000 w) with
  | more u =>
    rw [hc] at h2
    exact h1.chain1 h2
  | done x u =>
    rw [hc] at h2
    exact (h1.chain1 h2).chain1 (keeps_checkTimer L env t u)

theorem keeps_loopIter (L : Lib) (env : Env) (N n : Nat) (t : MQTTTimer) (w : World) :
    ∃ s c, Keeps L env ⟨t.deadline, TimerPhase.idle⟩ w (loopIter L env N n t w) s c ∧
      ((s.phase = TimerPhase.idle ∧ c = n) ∨
       (s.phase = TimerPhase.awaiting ∧ 0 < c ∧ c ≤ n)) := by
  induction n generalizing t w with
  | zero => exact ⟨_, _, ⟨[], by simp [loopIter], rfl, rfl⟩, Or.inl ⟨rfl, rfl⟩⟩
  | succ n ih =>
    have hb := keeps_loopBody L env N t w
    rw [loopIter]
    cases hc : loopBody L env N t w with
    | more u =>
      rw [hc] at hb
      exact ⟨_, _, hb, Or.inr ⟨rfl, by omega, by omega⟩⟩
    | done t2 u =>
      rw [hc] at hb
      obtain ⟨s, c, hs, hs2⟩ := ih t2 u
      refine ⟨s, 1 + c, hb.chain hs, ?_⟩
      rcases hs2 with ⟨h1, h2⟩ | ⟨h1, h2, h3⟩
      · exact Or.inl ⟨h1, by omega⟩
      · exact Or.inr ⟨h1, by omega, by omega⟩

/-- Claim C5, for the periodic timer of `loop`, whose expiry rule is the one of the
specification.  `loop` first declares the timer with `MQTTTimer timer(5000)`, which sets the
deadline 5000 ms after the time of the declaration; the events that follow are admitted by the
schedule from there, under any environment and for any number `n` of cycles.  So each cycle
polls the timer once, and the poll reports expiry exactly when the clock has reached the
deadline.  A cycle whose poll comes before the deadline makes no telemetry publish.  A cycle
whose poll comes at or after it makes the scheduled set exactly once, one publish per metric on
channels 0, 1 and 2 in this order, whatever each returns, and then calls `countdown_ms(5000)`,
the same duration, at a time not before the deadline that had expired; the deadline polled in
the following cycles is 5000 ms after the time of that call, hence at least 5000 ms after the
deadline that had expired.  After the run all `n` cycles are complete, or a reconnect is still
going on in one of them, its budget used up. -/
theorem loop_timer_periodic (L : Lib) (env : Env) (N n : Nat) (w : World) :
    (∃ evs s, w.since (loop L env N n w) = Event.plain (Call.timer_new 5000) :: evs ∧
      Schedule.run L env ⟨env.now_ms w.trace.length + 5000, TimerPhase.idle⟩
        (w.trace.length + 1) evs = some s ∧
      ((s.phase = TimerPhase.idle ∧ yields evs = n) ∨
       (s.phase = TimerPhase.awaiting ∧ 0 < yields evs ∧ yields evs ≤ n))) ∧
    (∀ (s s2 : Schedule) (i : Nat) (e : Event), Schedule.step L env s i e = some s2 →
      s2.deadline = s.deadline ∨
      (s.deadline ≤ env.now_ms i ∧ s2.deadline = env.now_ms i + 5000 ∧
        e.call = Call.timer_countdown_ms 5000)) := by
  constructor
  · obtain ⟨s, c, ⟨evs, he, hr, hc⟩, hs⟩ := keeps_loopIter L env N n (timer_new env 5000 w).1
      (timer_new env 5000 w).2
    refine ⟨evs, s, ?_, ?_, by rw [hc]; exact hs⟩
    · rw [loop]
      exact since_append w _ _ (by
        rw [he]
        simp [timer_new, World.emit])
    · have hl : (timer_new env 5000 w).2.trace.length = w.trace.length + 1 := by
        simp [timer_new, World.emit]
      rw [hl] at hr
      exact hr
  · intro s s2 i e h
    unfold Schedule.step at h
    split at h
    · split_ifs at h
      cases h
      exact Or.inl rfl
    · split_ifs at h <;> cases h <;> exact Or.inl rfl
    · split_ifs at h with h1 h2 h3 h4
      · cases h; exact Or.inl rfl
      · cases h; exact Or.inl rfl
      · cases h; exact Or.inr ⟨h4.2, rfl, h4.1⟩

/-- Witness for C5, the scenario of the specification inside a run of `main` over seven
cycles: the timer is declared at event 13, at time 0, for 5000 ms.  The first four cycles poll
it at 1000, 2000, 3000 and 4000 ms; the fifth polls it at 4999 ms (event 33) and it does not
fire; the sixth polls it at 5000 ms (event 37): it fires, the three publishes are made once
each, and it is rearmed with `countdown_ms(5000)` at 5000 ms (event 41), so that the deadline
becomes 10000 ms; the seventh polls it still at 5000 ms (event 45) and it does not fire again. -/
theorem loop_timer_periodic_witness :
    (pacedEnv.now_ms 13 = 0 ∧ pacedEnv.now_ms 33 = 4999 ∧ pacedEnv.now_ms 37 = 5000 ∧
      pacedEnv.now_ms 41 = 5000 ∧ pacedEnv.now_ms 45 = 5000) ∧
    (main exampleLib pacedEnv 1 7 World.init).world.trace.get? 13 =
      some (Event.plain (Call.timer_new 5000)) ∧
    (main exampleLib pacedEnv 1 7 World.init).world.trace.get? 33 =
      some ⟨Call.timer_expired, Ret.flag false⟩ ∧
    (main exampleLib pacedEnv 1 7 World.init).world.trace.get? 45 =
      some ⟨Call.timer_expired, Ret.flag false⟩ ∧
    ((main exampleLib pacedEnv 1 7 World.init).world.trace.filter
        (fun e => decide (e.call = Call.timer_expired))).map Event.ret =
      [Ret.flag false, Ret.flag false, Ret.flag false, Ret.flag false, Ret.flag false,
       Ret.flag true, Ret.flag false] ∧
    outbound (((main exampleLib pacedEnv 1 7 World.init).world.trace.drop 37).take 5) =
      [Call.timer_expired,
       Call.publishData 1 0 (some "temp") (some "c") (Value.double 305 (-1)),
       Call.publishData 1 1 (some "lum") (some "lux") (Value.int 1000),
       Call.publishData 1 2 (some "bp") (some "hpa") (Value.int 800),
       Call.timer_countdown_ms 5000] ∧
    Schedule.run exampleLib pacedEnv ⟨5000, TimerPhase.idle⟩ 14
      ((main exampleLib pacedEnv 1 7 World.init).world.trace.drop 14) =
      some ⟨10000, TimerPhase.idle⟩ ∧
    (∃ evs s, (connectClient exampleLib pacedEnv 1 (startup World.init)).world.since
        (loop exampleLib pacedEnv 1 7
          (connectClient exampleLib pacedEnv 1 (startup World.init)).world) =
        Event.plain (Call.timer_new 5000) :: evs ∧
      Schedule.run exampleLib pacedEnv
        ⟨pacedEnv.now_ms
          (connectClient exampleLib pacedEnv 1 (startup World.init)).world.trace.length + 5000,
          TimerPhase.idle⟩
        ((connectClient exampleLib pacedEnv 1 (startup World.init)).world.trace.length + 1) evs
        = some s ∧
      ((s.phase = TimerPhase.idle ∧ yields evs = 7) ∨
       (s.phase = TimerPhase.awaiting ∧ 0 < yields evs ∧ yields evs ≤ 7))) :=
  ⟨⟨rfl, rfl, rfl, rfl, rfl⟩, rfl, rfl, rfl, rfl, rfl, rfl,
    (loop_timer_periodic exampleLib pacedEnv 1 7
      (connectClient exampleLib pacedEnv 1 (startup World.init)).world).1⟩

end Cayenne
